import Mathlib

/-!
Verification of the news-retrieval / AI-analysis core of
`believeitmyway/InvestmentCopilot` (`app.py`).

The Python code is shallowly embedded: dictionaries of fixed shape become
structures, Python floats are modelled as exact rationals (every claim's
arithmetic is far from any rounding boundary), network collaborators
(DuckDuckGo search, article fetch, Gemini/OpenAI transports, the company-name
scraper) are modelled as explicit environment oracles whose outcomes include
raised exceptions, and `try/except` blocks become case splits on those
outcomes.  Python's `json.loads` is modelled by an executable parser
`jsonLoads` covering the JSON fragment exercised here (objects, arrays,
escape-free strings, integers, booleans, null); it is also kept as an explicit
`loads` parameter so theorems about control flow hold for any parser.
-/

/-! ## Python string primitives -/

/-- Python `\s` / `str.strip` whitespace (ASCII fragment). -/
def pyIsSpace (c : Char) : Bool :=
  c.toNat == 32 || c.toNat == 9 || c.toNat == 10 || c.toNat == 13 ||
    c.toNat == 11 || c.toNat == 12

/-- ASCII decimal digit (`\d`, `str.isdigit` ASCII fragment). -/
def isDigitC (c : Char) : Bool :=
  48 ≤ c.toNat && c.toNat ≤ 57

/-- Python `str.lower()` per character (ASCII case mapping; characters
outside A-Z — including CJK — are unchanged, as in Python). -/
def pyCharLower (c : Char) : Char :=
  if 65 ≤ c.toNat && c.toNat ≤ 90 then Char.ofNat (c.toNat + 32) else c

/-- Python `str.upper()` per character (ASCII case mapping). -/
def pyCharUpper (c : Char) : Char :=
  if 97 ≤ c.toNat && c.toNat ≤ 122 then Char.ofNat (c.toNat - 32) else c

/-- Python `str.lower()`. -/
def pyLower (s : String) : String := String.mk (s.toList.map pyCharLower)

/-- Python `str.upper()`. -/
def pyUpper (s : String) : String := String.mk (s.toList.map pyCharUpper)

/-- Python `str.strip()` on a character list. -/
def pyStripList (cs : List Char) : List Char :=
  ((cs.dropWhile pyIsSpace).reverse.dropWhile pyIsSpace).reverse

/-- Python `str.strip()`. -/
def pyStrip (s : String) : String :=
  String.mk (pyStripList s.toList)

/-- Python `needle in hay` (substring containment) on character lists. -/
def strContainsL (hay needle : List Char) : Bool :=
  match hay with
  | [] => needle.isEmpty
  | _ :: rest => needle.isPrefixOf hay || strContainsL rest needle

/-- Python `needle in hay` (substring containment). -/
def strContains (hay needle : String) : Bool :=
  strContainsL hay.toList needle.toList

/-- Scanner for `strCountL`: `skip` pending characters belong to the last
match and are passed over. -/
def strCountGo (needle : List Char) : List Char → Nat → Nat
  | [], _ => 0
  | _ :: rest, skip + 1 => strCountGo needle rest skip
  | c :: rest, 0 =>
    if needle.isPrefixOf (c :: rest) then
      1 + strCountGo needle rest (needle.length - 1)
    else strCountGo needle rest 0

/-- Python `hay.count(needle)`: non-overlapping occurrence count.
Python counts the empty needle `len(hay) + 1` times. -/
def strCountL (hay needle : List Char) : Nat :=
  if needle.isEmpty then hay.length + 1 else strCountGo needle hay 0

/-- Python `hay.count(needle)`. -/
def strCount (hay needle : String) : Nat :=
  strCountL hay.toList needle.toList

/-- Scanner for `strReplaceL`: `skip` pending characters belong to the last
match (already replaced) and are dropped. -/
def strReplaceGo (old new : List Char) : List Char → Nat → List Char
  | [], _ => []
  | _ :: rest, skip + 1 => strReplaceGo old new rest skip
  | c :: rest, 0 =>
    if old.isPrefixOf (c :: rest) then
      new ++ strReplaceGo old new rest (old.length - 1)
    else c :: strReplaceGo old new rest 0

/-- Python `s.replace(old, new)` for a non-empty `old`
(all non-overlapping occurrences, left to right). -/
def strReplaceL (cs old new : List Char) : List Char :=
  if old.isEmpty then cs else strReplaceGo old new cs 0

/-- Python `s.replace(old, new)`. -/
def strReplace (s old new : String) : String :=
  String.mk (strReplaceL s.toList old.toList new.toList)

/-- Python `s.find(ch)`: index of first occurrence or `-1`. -/
def pyFindChar (s : String) (ch : Char) : Int :=
  match s.toList.indexOf? ch with
  | some i => (i : Int)
  | none => -1

/-- Python `s.rfind(ch)`: index of last occurrence or `-1`. -/
def pyRFindChar (s : String) (ch : Char) : Int :=
  match s.toList.reverse.indexOf? ch with
  | some i => (s.toList.length - 1 - i : Int)
  | none => -1

/-- Python `s[a:b]` for `0 ≤ a`, `0 ≤ b` (empty when `b ≤ a`). -/
def pySliceStr (s : String) (a b : Nat) : String :=
  String.mk ((s.toList.drop a).take (b - a))

/-- Python `l[:n]` for an arbitrary (possibly negative) integer bound. -/
def pySliceTo (n : Int) (l : List α) : List α :=
  if n < 0 then l.take (l.length - n.natAbs) else l.take n.toNat

/-- Python `round` on an exact rational: round half to even. -/
def pyRound (q : ℚ) : Int :=
  let f : Int := ⌊q⌋
  let frac : ℚ := q - f
  if frac < 1/2 then f
  else if 1/2 < frac then f + 1
  else if f % 2 = 0 then f else f + 1

/-- Python `str.isdigit()` (ASCII fragment). -/
def pyIsDigitStr (s : String) : Bool :=
  !s.isEmpty && s.toList.all isDigitC

/-- Digit string to number (`int(...)` on a digit-only string). -/
def digitsToNat (cs : List Char) : Nat :=
  cs.foldl (fun acc c => acc * 10 + (c.toNat - '0'.toNat)) 0

/-! ## Python JSON values -/

/-- Values produced by `json.loads` (integer fragment for numbers). -/
inductive PyJson where
  | null : PyJson
  | bool : Bool → PyJson
  | int : Int → PyJson
  | str : String → PyJson
  | arr : List PyJson → PyJson
  | obj : List (String × PyJson) → PyJson
deriving Repr

/-- Python truthiness of a JSON value. -/
def pyTruthy : PyJson → Bool
  | .null => false
  | .bool b => b
  | .int n => n != 0
  | .str s => !s.isEmpty
  | .arr xs => !xs.isEmpty
  | .obj kvs => !kvs.isEmpty

/-- `d.get(k)` on an ordered dict with unique keys. -/
def objGet (kvs : List (String × PyJson)) (k : String) : Option PyJson :=
  match kvs with
  | [] => none
  | (k', v) :: rest => if k' = k then some v else objGet rest k

/-- `d[k] = v`: replace in place when present, append otherwise. -/
def objSet (kvs : List (String × PyJson)) (k : String) (v : PyJson) :
    List (String × PyJson) :=
  match kvs with
  | [] => [(k, v)]
  | (k', v') :: rest =>
    if k' = k then (k', v) :: rest else (k', v') :: objSet rest k v

/-! ## A concrete model of `json.loads`

Executable parser for the JSON fragment used in the claims: objects, arrays,
strings without escape sequences, integers, `true`/`false`/`null`.  A float,
an escape sequence, or any other unsupported form is a parse failure. -/

def jsonSkipWs (cs : List Char) : List Char :=
  cs.dropWhile (fun c => c == ' ' || c == '\t' || c == '\n' || c == '\r')

/-- Parse a JSON string body after the opening quote (no escapes). -/
def jsonString (cs : List Char) : Option (String × List Char) :=
  match cs with
  | [] => none
  | c :: rest =>
    if c == '"' then some ("", rest)
    else if c == '\\' then none
    else match jsonString rest with
      | some (s, r) => some (String.mk (c :: s.toList), r)
      | none => none

mutual

def jsonValue (fuel : Nat) (cs : List Char) : Option (PyJson × List Char) :=
  match fuel with
  | 0 => none
  | fuel + 1 =>
    match cs with
    | [] => none
    | c :: rest =>
      if c == 'n' then
        if ['u', 'l', 'l'].isPrefixOf rest then some (.null, rest.drop 3) else none
      else if c == 't' then
        if ['r', 'u', 'e'].isPrefixOf rest then some (.bool true, rest.drop 3) else none
      else if c == 'f' then
        if ['a', 'l', 's', 'e'].isPrefixOf rest then some (.bool false, rest.drop 4) else none
      else if c == '"' then
        match jsonString rest with
        | some (s, r) => some (.str s, r)
        | none => none
      else if c == '-' || isDigitC c then
        let (neg, ds0) := if c == '-' then (true, rest) else (false, cs)
        let digits := ds0.takeWhile isDigitC
        let r := ds0.dropWhile isDigitC
        if digits.isEmpty then none
        else match r with
          | '.' :: _ => none
          | 'e' :: _ => none
          | 'E' :: _ => none
          | _ =>
            let n : Int := (digitsToNat digits : Int)
            some (.int (if neg then -n else n), r)
      else if c == '[' then
        match jsonSkipWs rest with
        | ']' :: r => some (.arr [], r)
        | cs' => match jsonArrItems fuel cs' with
          | some (xs, r) => some (.arr xs, r)
          | none => none
      else if c == '{' then
        match jsonSkipWs rest with
        | '}' :: r => some (.obj [], r)
        | cs' => match jsonObjItems fuel cs' with
          | some (kvs, r) =>
            -- later duplicate keys win, as with repeated dict assignment
            some (.obj (kvs.foldl (fun acc kv => objSet acc kv.1 kv.2) []), r)
          | none => none
      else none

def jsonArrItems (fuel : Nat) (cs : List Char) : Option (List PyJson × List Char) :=
  match fuel with
  | 0 => none
  | fuel + 1 =>
    match jsonValue fuel cs with
    | none => none
    | some (v, r) =>
      match jsonSkipWs r with
      | ',' :: r' =>
        match jsonArrItems fuel (jsonSkipWs r') with
        | some (xs, r'') => some (v :: xs, r'')
        | none => none
      | ']' :: r' => some ([v], r')
      | _ => none

def jsonObjItems (fuel : Nat) (cs : List Char) :
    Option (List (String × PyJson) × List Char) :=
  match fuel with
  | 0 => none
  | fuel + 1 =>
    match cs with
    | '"' :: rest =>
      match jsonString rest with
      | none => none
      | some (k, r) =>
        match jsonSkipWs r with
        | ':' :: r' =>
          match jsonValue fuel (jsonSkipWs r') with
          | none => none
          | some (v, r'') =>
            match jsonSkipWs r'' with
            | ',' :: r3 =>
              match jsonObjItems fuel (jsonSkipWs r3) with
              | some (kvs, r4) => some ((k, v) :: kvs, r4)
              | none => none
            | '}' :: r3 => some ([(k, v)], r3)
            | _ => none
        | _ => none
    | _ => none

end

/-- Model of Python `json.loads` on the supported fragment; later keys win on
duplicates, as in CPython. -/
def jsonLoads (s : String) : Option PyJson :=
  let cs := jsonSkipWs s.toList
  match jsonValue (2 * cs.length + 2) cs with
  | some (v, rest) => if (jsonSkipWs rest).isEmpty then some v else none
  | none => none

/-! ## Datetime model

`datetime` values are modelled by seconds since the Unix epoch (UTC for
aware values; naive values are interpreted field-wise as if UTC, matching the
code's later `replace(tzinfo=timezone.utc)`), plus a timezone-awareness flag.
Sub-second precision is immaterial to every claim and is dropped. -/

structure PyDateTime where
  sec : Int
  aware : Bool
deriving DecidableEq, Repr

def isLeapYear (y : Nat) : Bool :=
  (y % 4 == 0 && y % 100 != 0) || y % 400 == 0

def daysInMonth (y mo : Nat) : Nat :=
  if mo == 2 then (if isLeapYear y then 29 else 28)
  else if mo == 4 || mo == 6 || mo == 9 || mo == 11 then 30
  else 31

/-- Days from 1970-01-01 to the given civil date (proleptic Gregorian). -/
def daysFromCivil (y : Int) (mo d : Nat) : Int :=
  let y' : Int := if mo ≤ 2 then y - 1 else y
  let era : Int := Int.fdiv y' 400
  let yoe : Int := y' - era * 400
  let mp : Nat := (mo + 9) % 12
  let doy : Int := (153 * mp + 2) / 5 + d - 1
  let doe : Int := yoe * 365 + Int.fdiv yoe 4 - Int.fdiv yoe 100 + doy
  era * 146097 + doe - 719468

/-! ## `datetime.strptime` model

Python's `_strptime` compiles a format into a regex (with `re.IGNORECASE`):
`%Y` is exactly four digits; `%m` is `1[0-2]|0[1-9]|[1-9]`; `%d` is
`3[01]|[12]\d|0[1-9]|[1-9]`; `%H` is `2[0-3]|[0-1]\d|\d`; `%M` is
`[0-5]\d|\d`; `%S` is `6[0-1]|[0-5]\d|\d`; `%z` is
`[+-]\d\d:?\d\d(:?\d\d(fraction)?)?|Z` (the `Z` case-sensitively); `%b`/`%B`
are alternations of English month names sorted by length (descending,
stable); a literal matches itself case-insensitively, and a space in the
format matches one or more whitespace characters.  Each directive parser
below returns its candidate list in the regex engine's backtracking order;
sequencing by `List.bind` therefore enumerates the engine's matches in
order, and the engine's result is the head of that list.  `strptime` then
requires the match to span the whole input and the fields to form a valid
`datetime` (otherwise `ValueError`, i.e. `none`). -/

def charVal (c : Char) : Nat := c.toNat - 48

def isD (c : Char) (lo hi : Char) : Bool := lo.toNat ≤ c.toNat && c.toNat ≤ hi.toNat

/-- `%Y`: exactly four digits. -/
def pTokY : List Char → List (Nat × List Char)
  | a :: b :: c :: d :: r =>
    if isDigitC a && isDigitC b && isDigitC c && isDigitC d then
      [(charVal a * 1000 + charVal b * 100 + charVal c * 10 + charVal d, r)]
    else []
  | _ => []

/-- `%m`: `1[0-2]|0[1-9]|[1-9]`. -/
def pTokMon (cs : List Char) : List (Nat × List Char) :=
  (match cs with
   | a :: b :: r =>
     if a == '1' && isD b '0' '2' then [(10 + charVal b, r)] else []
   | _ => []) ++
  (match cs with
   | a :: b :: r =>
     if a == '0' && isD b '1' '9' then [(charVal b, r)] else []
   | _ => []) ++
  (match cs with
   | a :: r => if isD a '1' '9' then [(charVal a, r)] else []
   | _ => [])

/-- `%d`: `3[01]|[12]\d|0[1-9]|[1-9]`. -/
def pTokDay (cs : List Char) : List (Nat × List Char) :=
  (match cs with
   | a :: b :: r =>
     if a == '3' && isD b '0' '1' then [(30 + charVal b, r)] else []
   | _ => []) ++
  (match cs with
   | a :: b :: r =>
     if isD a '1' '2' && isDigitC b then [(charVal a * 10 + charVal b, r)] else []
   | _ => []) ++
  (match cs with
   | a :: b :: r =>
     if a == '0' && isD b '1' '9' then [(charVal b, r)] else []
   | _ => []) ++
  (match cs with
   | a :: r => if isD a '1' '9' then [(charVal a, r)] else []
   | _ => [])

/-- `%H`: `2[0-3]|[0-1]\d|\d`. -/
def pTokHour (cs : List Char) : List (Nat × List Char) :=
  (match cs with
   | a :: b :: r =>
     if a == '2' && isD b '0' '3' then [(20 + charVal b, r)] else []
   | _ => []) ++
  (match cs with
   | a :: b :: r =>
     if isD a '0' '1' && isDigitC b then [(charVal a * 10 + charVal b, r)] else []
   | _ => []) ++
  (match cs with
   | a :: r => if isDigitC a then [(charVal a, r)] else []
   | _ => [])

/-- `%M` (and the `[0-5]\d` part of `%S`): `[0-5]\d|\d`. -/
def pTokMin (cs : List Char) : List (Nat × List Char) :=
  (match cs with
   | a :: b :: r =>
     if isD a '0' '5' && isDigitC b then [(charVal a * 10 + charVal b, r)] else []
   | _ => []) ++
  (match cs with
   | a :: r => if isDigitC a then [(charVal a, r)] else []
   | _ => [])

/-- `%S`: `6[0-1]|[0-5]\d|\d`. -/
def pTokSec (cs : List Char) : List (Nat × List Char) :=
  (match cs with
   | a :: b :: r =>
     if a == '6' && isD b '0' '1' then [(60 + charVal b, r)] else []
   | _ => []) ++
  pTokMin cs

/-- The optional `(\.\d{1,6})?` fraction inside `%z`: candidate remainders,
greedy first (the fraction value itself only sets microseconds). -/
def pTokZFrac (cs : List Char) : List (List Char) :=
  (match cs with
   | '.' :: rest =>
     let ds := rest.takeWhile isDigitC
     if ds.isEmpty then []
     else
       -- \d{1,6} is greedy: longest first, down to one digit
       (List.range (min ds.length 6)).map
         (fun i => rest.drop (min ds.length 6 - i))
   | _ => []) ++ [cs]

/-- `%z`: offset in seconds, candidates in backtracking order. -/
def pTokZ (cs : List Char) : List (Int × List Char) :=
  (match cs with
   | s :: h1 :: h2 :: r0 =>
     if (s == '+' || s == '-') && isDigitC h1 && isDigitC h2 then
       let sign : Int := if s == '-' then -1 else 1
       let hh := charVal h1 * 10 + charVal h2
       -- `:?` is greedy: the with-colon branch first
       let afterColon : List (List Char) :=
         (match r0 with
          | ':' :: r1 => [r1]
          | _ => []) ++ [r0]
       afterColon.flatMap (fun r1 =>
         match r1 with
         | m1 :: m2 :: r2 =>
           if isDigitC m1 && isDigitC m2 then
             let mm := charVal m1 * 10 + charVal m2
             -- optional seconds group, greedy first
             let withSec : List (Int × List Char) :=
               let afterColon2 : List (List Char) :=
                 (match r2 with
                  | ':' :: r3 => [r3]
                  | _ => []) ++ [r2]
               afterColon2.flatMap (fun r3 =>
                 match r3 with
                 | s1 :: s2 :: r4 =>
                   if isDigitC s1 && isDigitC s2 then
                     let ss := charVal s1 * 10 + charVal s2
                     (pTokZFrac r4).map
                       (fun r5 => (sign * (hh * 3600 + mm * 60 + ss), r5))
                   else []
                 | _ => [])
             withSec ++ [(sign * (hh * 3600 + mm * 60), r2)]
           else []
         | _ => [])
     else []
   | _ => []) ++
  (match cs with
   | 'Z' :: r => [((0 : Int), r)]
   | _ => [])

/-- `%b` month names: English abbreviations, `TimeRE` order. -/
def monthAbbrs : List (String × Nat) :=
  [("jan", 1), ("feb", 2), ("mar", 3), ("apr", 4), ("may", 5), ("jun", 6),
   ("jul", 7), ("aug", 8), ("sep", 9), ("oct", 10), ("nov", 11), ("dec", 12)]

/-- `%B` month names: English full names sorted by length descending
(stable), the `TimeRE` alternation order. -/
def monthFulls : List (String × Nat) :=
  [("september", 9), ("february", 2), ("november", 11), ("december", 12),
   ("january", 1), ("october", 10), ("august", 8), ("march", 3),
   ("april", 4), ("june", 6), ("july", 7), ("may", 5)]

/-- Case-insensitive prefix match (the regex is compiled with IGNORECASE). -/
def ciPrefix (pat : List Char) (cs : List Char) : Option (List Char) :=
  match pat, cs with
  | [], _ => some cs
  | _ :: _, [] => none
  | p :: ps, c :: rest =>
    if (pyCharLower p).toNat == (pyCharLower c).toNat then ciPrefix ps rest else none

def pTokMonName (names : List (String × Nat)) (cs : List Char) :
    List (Nat × List Char) :=
  names.flatMap (fun (nm, v) =>
    match ciPrefix nm.toList cs with
    | some r => [(v, r)]
    | none => [])

/-- Format directives. -/
inductive FTok where
  | Y | mon | day | hour | minute | second | z
  | monAbbr | monFull
  | lit : Char → FTok
  | ws : FTok
deriving Repr

structure TimeFields where
  y : Nat := 1900
  mo : Nat := 1
  d : Nat := 1
  h : Nat := 0
  mi : Nat := 0
  s : Nat := 0
  tz : Option Int := none
deriving Repr, DecidableEq

def runTok (t : FTok) (f : TimeFields) (cs : List Char) :
    List (TimeFields × List Char) :=
  match t with
  | .Y => (pTokY cs).map (fun (v, r) => ({ f with y := v }, r))
  | .mon => (pTokMon cs).map (fun (v, r) => ({ f with mo := v }, r))
  | .day => (pTokDay cs).map (fun (v, r) => ({ f with d := v }, r))
  | .hour => (pTokHour cs).map (fun (v, r) => ({ f with h := v }, r))
  | .minute => (pTokMin cs).map (fun (v, r) => ({ f with mi := v }, r))
  | .second => (pTokSec cs).map (fun (v, r) => ({ f with s := v }, r))
  | .z => (pTokZ cs).map (fun (v, r) => ({ f with tz := some v }, r))
  | .monAbbr => (pTokMonName monthAbbrs cs).map (fun (v, r) => ({ f with mo := v }, r))
  | .monFull => (pTokMonName monthFulls cs).map (fun (v, r) => ({ f with mo := v }, r))
  | .lit c =>
    match cs with
    | c' :: r => if (pyCharLower c').toNat == (pyCharLower c).toNat then [(f, r)] else []
    | [] => []
  | .ws =>
    let run := cs.takeWhile pyIsSpace
    if run.isEmpty then []
    else
      -- \s+ is greedy: consume the longest whitespace run first
      (List.range run.length).map (fun i => (f, cs.drop (run.length - i)))

def runFormat : List FTok → TimeFields → List Char → List (TimeFields × List Char)
  | [], f, cs => [(f, cs)]
  | t :: ts, f, cs => (runTok t f cs).flatMap (fun (f', r) => runFormat ts f' r)

/-- Validity checks done by the `datetime` constructor: a failing check is a
`ValueError`, which `parse_news_date` treats as "this format failed". -/
def buildDateTime (f : TimeFields) : Option PyDateTime :=
  if 1 ≤ f.y && 1 ≤ f.mo && f.mo ≤ 12 && 1 ≤ f.d && f.d ≤ daysInMonth f.y f.mo &&
      f.h ≤ 23 && f.mi ≤ 59 && f.s ≤ 59 &&
      (match f.tz with | some off => off.natAbs < 86400 | none => true) then
    some { sec := daysFromCivil f.y f.mo f.d * 86400 + f.h * 3600 + f.mi * 60 + f.s
                  - f.tz.getD 0,
           aware := f.tz.isSome }
  else none

/-- `datetime.strptime(s, fmt)`: the regex engine's first match must span the
whole string and yield a constructible datetime. -/
def strptimeWith (toks : List FTok) (s : String) : Option PyDateTime :=
  match (runFormat toks {} s.toList).head? with
  | none => none
  | some (f, rest) => if rest.isEmpty then buildDateTime f else none

/-- The format list tried by `parse_news_date`, in order. -/
def newsDateFormats : List (List FTok) :=
  [ [.Y, .lit '-', .mon, .lit '-', .day, .lit 'T', .hour, .lit ':', .minute,
     .lit ':', .second, .z],
    [.Y, .lit '-', .mon, .lit '-', .day, .lit 'T', .hour, .lit ':', .minute,
     .lit ':', .second],
    [.Y, .lit '-', .mon, .lit '-', .day, .ws, .hour, .lit ':', .minute,
     .lit ':', .second],
    [.Y, .lit '-', .mon, .lit '-', .day],
    [.day, .ws, .monAbbr, .ws, .Y],
    [.day, .ws, .monFull, .ws, .Y],
    [.Y, .lit '年', .mon, .lit '月', .day, .lit '日'] ]

def tryFormats : List (List FTok) → String → Option PyDateTime
  | [], _ => none
  | toks :: rest, s =>
    match strptimeWith toks s with
    | some dt => some dt
    | none => tryFormats rest s

/-- Scanner for `searchNumBefore`: `skip` pending characters belong to the
maximal digit run already examined. -/
def searchNumGo (lit : List Char) : List Char → Nat → Option Nat
  | [], _ => none
  | _ :: rest, skip + 1 => searchNumGo lit rest skip
  | c :: rest, 0 =>
    if isDigitC c then
      let run := (c :: rest).takeWhile isDigitC
      if lit.isPrefixOf (((c :: rest).dropWhile isDigitC).dropWhile pyIsSpace) then
        some (digitsToNat run)
      else searchNumGo lit rest (run.length - 1)
    else searchNumGo lit rest 0

/-- `re.search(r"(\d+)\s*LIT", text)` for a literal tail `lit` containing no
digits and no whitespace: the captured number, if any.  When a maximal digit
run fails to be followed by (whitespace then) `lit`, no suffix of that run
can succeed either (the context after the run is the same), so the scan
resumes after the run. -/
def searchNumBefore (cs : List Char) (lit : List Char) : Option Nat :=
  searchNumGo lit cs 0

/-- `parse_news_date` (`app.py`): tries the seven `strptime` formats in
order, then the Japanese relative forms `N時間前` / `N日前` against
`datetime.now(timezone.utc)` (the parameter `now`), and otherwise `None`. -/
def parse_news_date (now : Int) (dateStr : Option String) : Option PyDateTime :=
  match dateStr with
  | none => none
  | some ds =>
    if ds = "" then none
    else
      match tryFormats newsDateFormats ds with
      | some dt => some dt
      | none =>
        let low := pyLower ds
        match searchNumBefore low.toList ['時', '間', '前'] with
        | some n => some { sec := now - 3600 * n, aware := true }
        | none =>
          match searchNumBefore low.toList ['日', '前'] with
          | some n => some { sec := now - 86400 * n, aware := true }
          | none => none

/-! ## Snapshot and news-item data model

`fetch_ticker_snapshot` always returns a dict with this fixed key set (values
possibly `None`), so the snapshot is a structure with `Option` fields; the
same holds for the news-item dicts built inside `fetch_news`. -/

structure AnalystSnapshot where
  recommendation_key : Option String := none
  recommendation_mean : Option ℚ := none
  opinion_count : Option Int := none
  target_mean_price : Option ℚ := none
  target_gap_pct : Option ℚ := none
  institutional_ownership_pct : Option ℚ := none
deriving DecidableEq, Repr

structure KeyMetrics where
  trailingPE : Option ℚ := none
  forwardPE : Option ℚ := none
  pegRatio : Option ℚ := none
  priceToBook : Option ℚ := none
  trailingEps : Option ℚ := none
  dividendYield : Option ℚ := none
  beta : Option ℚ := none
  marketCap : Option ℚ := none
deriving DecidableEq, Repr

structure Snapshot where
  symbol : String
  resolved_symbol : Option String := none
  company_name : String
  price : Option ℚ := none
  previous_close : Option ℚ := none
  day_change : Option ℚ := none
  day_change_pct : Option ℚ := none
  currency : String := "USD"
  market_time : String := ""
  analyst : AnalystSnapshot := {}
  key_metrics : KeyMetrics := {}
deriving DecidableEq, Repr

structure NewsItem where
  title : String
  url : String
  snippet : String
  published : Option String
  source : String
  language : String
  full_content_fetched : Option Bool := none
deriving DecidableEq, Repr

/-- Python truthiness of an optional number (`None` and `0` are falsy). -/
def pyTruthyOQ : Option ℚ → Bool
  | none => false
  | some q => q != 0

/-- Python truthiness of an optional string (`None` and `""` are falsy). -/
def pyTruthyOS : Option String → Bool
  | none => false
  | some s => !s.isEmpty

/-! ## Number formatting helpers (`format_percent`, `f"{x:.1f}"`) -/

def padZeros (s : String) (width : Nat) : String :=
  String.mk (List.replicate (width - s.length) '0') ++ s

/-- Fixed-point rendering of a rational with `decimals` places
(round half to even, as Python's `format`). -/
def formatFixed (decimals : Nat) (q : ℚ) : String :=
  let scale : ℚ := ((10 ^ decimals : Nat) : ℚ)
  let r : Int := pyRound (q * scale)
  let sign := if r < 0 then "-" else ""
  let a := r.natAbs
  let ip := a / 10 ^ decimals
  let fp := a % 10 ^ decimals
  sign ++ toString ip ++
    (if decimals = 0 then "" else "." ++ padZeros (toString fp) decimals)

/-- `format_percent` (`app.py`): em-dash for `None`, else `f"{value:.2f}%"`.
(The NaN case does not arise in the exact-rational model.) -/
def format_percent : Option ℚ → String
  | none => "—"
  | some v => formatFixed 2 v ++ "%"

/-! ## `heuristic_analysis` (`app.py`) -/

/-- The clamped heuristic score.  Arithmetic is exact-rational; the values
any claim touches are far from every rounding boundary, so this agrees with
the float computation. -/
def heuristicScore (snapshot : Snapshot) : Int :=
  let analyst := snapshot.analyst
  let target_gap : ℚ := analyst.target_gap_pct.getD 0
  let day_move : ℚ := snapshot.day_change_pct.getD 0
  let reco := pyLower (analyst.recommendation_key.getD "")
  let score0 : ℚ := 55
  let score1 : ℚ := score0 + max (min (target_gap * (6/10)) 20) (-20)
  let score2 : ℚ :=
    score1 - max (min (|day_move| * (3/10)) 10) 0 * (if day_move < 0 then 1 else -(1/2))
  let sentiment_bonus : ℚ :=
    if reco = "strong_buy" then 12
    else if reco = "buy" then 8
    else if reco = "hold" then 0
    else if reco = "sell" then -10
    else if reco = "strong_sell" then -15
    else 0
  let score3 : ℚ := score2 + sentiment_bonus
  max 0 (min 100 (pyRound score3))

/-- The action/verdict thresholds of `heuristic_analysis`. -/
def heuristicVerdictAction (score : Int) : String × String :=
  if score ≥ 66 then ("Buy", "押し目買い好機")
  else if score ≤ 40 then ("Sell", "リスク回避を優先")
  else ("Hold", "中立：様子見")

/-- The bullet list of `heuristic_analysis`: available-field bullets padded
with a generic remark to three, then truncated to three. -/
def heuristicBullets (snapshot : Snapshot) : List String :=
  let analyst := snapshot.analyst
  let reco := pyLower (analyst.recommendation_key.getD "")
  let bullets0 : List String :=
    (if pyTruthyOQ analyst.target_mean_price && pyTruthyOQ snapshot.price then
      ["目標株価まで " ++ format_percent analyst.target_gap_pct ++ " の余地"]
     else []) ++
    (if reco ≠ "" then ["アナリスト評価: " ++ pyUpper reco] else []) ++
    (match snapshot.key_metrics.trailingPE with
     | some pe => if pe != 0 then ["PER " ++ formatFixed 1 pe ++ "倍で取引中"] else []
     | none => [])
  (bullets0 ++
    List.replicate (3 - bullets0.length) "市場ボラティリティに備えて分散を維持").take 3

/-- `heuristic_analysis` (`app.py`): deterministic fallback result. -/
def heuristic_analysis (snapshot : Snapshot) : PyJson :=
  .obj
    [("verdict_short", .str (heuristicVerdictAction (heuristicScore snapshot)).2),
     ("action", .str (heuristicVerdictAction (heuristicScore snapshot)).1),
     ("score", .int (heuristicScore snapshot)),
     ("bullet_points", .arr ((heuristicBullets snapshot).map .str)),
     ("scenario", .obj
        [("bullish_case", .str "外部AIキー未設定のため、シンプル指標で強気シナリオを推定しています。"),
         ("bearish_case", .str "短期テクニカルの振れに注意しつつファンダ指標の確認が必要です。"),
         ("competitive_edge", .str "目標株価と機関投資家動向を主要な拠り所としています。")]),
     ("analysis_comment", .str "外部AIレスポンスを取得できなかったため統計ベースの暫定コメントです。"),
     ("source", .str "heuristic")]

/-! ## AI response parsing and the provider fallback chain -/

/-- `_sanitize_ai_response`: truncates `bullet_points` to three entries
(`(parsed.get("bullet_points") or [])[:3]`).  A truthy value that is not
sliceable (number, bool, dict) raises `TypeError`, caught by the caller's
`except` — modelled as `none`. -/
def _sanitize_ai_response (kvs : List (String × PyJson)) :
    Option (List (String × PyJson)) :=
  let bp := (objGet kvs "bullet_points").getD .null
  let bpOr := if pyTruthy bp then bp else .arr []
  match bpOr with
  | .arr xs => some (objSet kvs "bullet_points" (.arr (xs.take 3)))
  | .str s => some (objSet kvs "bullet_points" (.str (String.mk (s.toList.take 3))))
  | _ => none

/-- `parse_ai_json_payload` (`app.py`): strip code fences, cut to the
substring between the first `\x7b` and the last `\x7d`, then `loads`. -/
def parse_ai_json_payload (loads : String → Option PyJson)
    (message : Option String) : Option PyJson :=
  match message with
  | none => none
  | some m =>
    if m = "" then none
    else
      let cleaned := pyStrip m
      let cleaned :=
        if cleaned.startsWith "```" then
          let afterFence := cleaned.toList.drop 3
          let afterFence :=
            if (ciPrefix ['j', 's', 'o', 'n'] afterFence).isSome then afterFence.drop 4
            else afterFence
          let c1 := pyStrip (String.mk afterFence)
          let c2 :=
            if c1.endsWith "```" then String.mk (c1.toList.take (c1.toList.length - 3))
            else c1
          pyStrip c2
        else cleaned
      let bs := pyFindChar cleaned '{'
      let be := pyRFindChar cleaned '}'
      let cleaned :=
        if bs != -1 && be != -1 then pySliceStr cleaned bs.toNat (be.toNat + 1)
        else cleaned
      loads cleaned

/-- Collaborator outcomes for one `generate_ai_analysis` run.  For each
provider the oracle yields either a raised transport exception (`.error`)
or the extracted message text (`response.text` / first-candidate fallback
for Gemini, first-choice content for OpenAI; `none` when absent). -/
structure AIEnv where
  genaiAvailable : Bool
  geminiMessage : Except String (Option String)
  openaiMessage : Except String (Option String)

structure AnalysisPayload where
  symbol : String
  company_name : String
  currency : String
  price : Option ℚ
  day_change_pct : Option ℚ
  analyst : AnalystSnapshot
  metrics : KeyMetrics
  news : List NewsItem
  timestamp : String

/-- `build_analysis_payload` (`app.py`). -/
def build_analysis_payload (snapshot : Snapshot) (news_items : List NewsItem) :
    AnalysisPayload :=
  { symbol :=
      match snapshot.resolved_symbol with
      | some r => if r ≠ "" then r else snapshot.symbol
      | none => snapshot.symbol,
    company_name := snapshot.company_name,
    currency := snapshot.currency,
    price := snapshot.price,
    day_change_pct := snapshot.day_change_pct,
    analyst := snapshot.analyst,
    metrics := snapshot.key_metrics,
    news := news_items,
    timestamp := snapshot.market_time }

/-- `request_openai_analysis` (`app.py`): `None` on blank key, transport
error, empty/unparseable message, falsy parse result, or a `TypeError`
inside tagging/sanitizing; otherwise the sanitized object tagged
`source = "openai"`. -/
def request_openai_analysis (loads : String → Option PyJson) (env : AIEnv)
    (api_key : Option String) (_payload : AnalysisPayload) : Option PyJson :=
  let key := pyStrip (api_key.getD "")
  if key = "" then none
  else
    match env.openaiMessage with
    | .error _ => none
    | .ok message =>
      match parse_ai_json_payload loads message with
      | none => none
      | some parsed =>
        if !pyTruthy parsed then none
        else
          match parsed with
          | .obj kvs =>
            match _sanitize_ai_response (objSet kvs "source" (.str "openai")) with
            | some kvs' => some (.obj kvs')
            | none => none
          | _ => none

/-- `request_gemini_analysis` (`app.py`): additionally skipped when the
`google.generativeai` module is missing, and with an explicit
`if not message: return None` check before parsing. -/
def request_gemini_analysis (loads : String → Option PyJson) (env : AIEnv)
    (api_key : Option String) (_payload : AnalysisPayload)
    (_model_name : Option String) : Option PyJson :=
  if !env.genaiAvailable then none
  else
    let key := pyStrip (api_key.getD "")
    if key = "" then none
    else
      match env.geminiMessage with
      | .error _ => none
      | .ok message =>
        let message :=
          match message with
          | some m => if m = "" then none else some m
          | none => none
        match message with
        | none => none
        | some m =>
          match parse_ai_json_payload loads (some m) with
          | none => none
          | some parsed =>
            if !pyTruthy parsed then none
            else
              match parsed with
              | .obj kvs =>
                match _sanitize_ai_response (objSet kvs "source" (.str "gemini")) with
                | some kvs' => some (.obj kvs')
                | none => none
              | _ => none

/-- `generate_ai_analysis` (`app.py`): Gemini, then OpenAI, then the
heuristic fallback. -/
def generate_ai_analysis (loads : String → Option PyJson) (env : AIEnv)
    (openai_api_key google_api_key : Option String) (snapshot : Snapshot)
    (news_items : List NewsItem) (google_model_name : Option String) : PyJson :=
  let payload := build_analysis_payload snapshot news_items
  let fallback := heuristic_analysis snapshot
  let openaiStage : PyJson :=
    let okey := pyStrip (openai_api_key.getD "")
    if okey ≠ "" then
      match request_openai_analysis loads env (some okey) payload with
      | some r => if pyTruthy r then r else fallback
      | none => fallback
    else fallback
  let gkey := pyStrip (google_api_key.getD "")
  if gkey ≠ "" then
    match request_gemini_analysis loads env (some gkey) payload google_model_name with
    | some r => if pyTruthy r then r else openaiStage
    | none => openaiStage
  else openaiStage

/-! ## News-search configuration

`NEWS_SEARCH_CONFIG` (external JSON merged over built-in defaults) as read by
the pipeline; the structure defaults are the source's built-in defaults.
Keyword templates (`"...".format(...)`) are modelled as string functions. -/

structure SearchCfg where
  max_results : Int := 15
  min_required_results : Nat := 5
  max_retries : Nat := 3
  mult_initial_japanese : Int := 8
  mult_fallback_japanese : Int := 4
  mult_english : Int := 5
  minc_initial_japanese : Int := 50
  minc_fallback_japanese : Int := 30
  minc_english : Int := 30

structure KeywordTemplates where
  japanese_search_templates : List (String → String) := []
  japanese_symbol_templates : List (String → String) := []
  -- applied to (symbol, company_name)
  japanese_combined_templates : List (String → String → String) := []
  english_search_templates : List (String → String) := []

structure ScoringWeights where
  company_name_in_title : Int := 10
  company_name_in_snippet : Int := 5
  company_name_count_multiplier : Int := 2
  company_name_count_max : Int := 10
  symbol_in_title : Int := 8
  symbol_in_snippet : Int := 4
  symbol_count_multiplier : Int := 2
  symbol_count_max : Int := 8
  query_in_title : Int := 6
  query_in_snippet : Int := 3
  deep_analysis_bonus : Int := 2
  importance_keyword_score : Int := 2

structure ScoringKeywords where
  shallow_ja : List String := []
  shallow_en : List String := []
  important_ja : List String := []
  important_en : List String := []
  deep_ja : List String := []
  deep_en : List String := []

structure FilteringCfg where
  date_threshold_days : Int := 365
  min_stock_codes : Nat := 3
  min_importance_score_when_focus_zero : Int := 4
  fallback_sufficient_threshold_multiplier : Int := 2

structure NewsSearchConfig where
  search : SearchCfg := {}
  keywords : KeywordTemplates := {}
  scoring : ScoringWeights := {}
  kws : ScoringKeywords := {}
  filtering : FilteringCfg := {}

/-! ## Relevance scoring (`calculate_focus_score`,
`calculate_news_importance_score`) -/

def calculate_focus_score (cfg : NewsSearchConfig) (item : NewsItem)
    (company_name symbol query : Option String) : Int :=
  let w := cfg.scoring
  let title := pyLower item.title
  let snippet := pyLower item.snippet
  let text := title ++ " " ++ snippet
  let sCompany : Int :=
    if pyTruthyOS company_name then
      let cnl := pyLower (company_name.getD "")
      (if strContains title cnl then w.company_name_in_title else 0) +
      (if strContains snippet cnl then w.company_name_in_snippet else 0) +
      min ((strCount text cnl : Int) * w.company_name_count_multiplier)
        w.company_name_count_max
    else 0
  let sSymbol : Int :=
    if pyTruthyOS symbol then
      let scl := pyLower (pyStrip (strReplace (symbol.getD "") ".T" ""))
      (if strContains title scl then w.symbol_in_title else 0) +
      (if strContains snippet scl then w.symbol_in_snippet else 0) +
      min ((strCount text scl : Int) * w.symbol_count_multiplier) w.symbol_count_max
    else 0
  let sQuery : Int :=
    if pyTruthyOS query then
      let ql := pyLower (query.getD "")
      (if strContains title ql then w.query_in_title else 0) +
      (if strContains snippet ql then w.query_in_snippet else 0)
    else 0
  let sDeep : Int :=
    ((cfg.kws.deep_ja ++ cfg.kws.deep_en).filter
      (fun kw => strContains text kw)).length * w.deep_analysis_bonus
  sCompany + sSymbol + sQuery + sDeep

def calculate_news_importance_score (cfg : NewsSearchConfig) (item : NewsItem) : Int :=
  let title := pyLower item.title
  let snippet := pyLower item.snippet
  let text := title ++ " " ++ snippet
  ((cfg.kws.important_ja ++ cfg.kws.important_en).filter
    (fun kw => strContains text kw)).length * cfg.scoring.importance_keyword_score

/-! ## Shallow-article classifier (`is_shallow_article`) -/

/-- Python `\w` for `\b` boundaries: ASCII alphanumerics and underscore;
non-ASCII characters are treated as word characters (Python additionally
excludes non-ASCII punctuation — a distinction no proved property relies
on, since all boundary-sensitive inputs here are ASCII-delimited). -/
def pyWordChar (c : Char) : Bool :=
  isDigitC c || (65 ≤ c.toNat && c.toNat ≤ 90) || (97 ≤ c.toNat && c.toNat ≤ 122) ||
    c.toNat == 95 || c.toNat ≥ 128

/-- `re.findall(r"\b\d{4}\b", text)`: non-overlapping scan, left to right. -/
def findStockCodes : Option Char → List Char → List String
  | prev, a :: b :: c :: d :: rest =>
    if (match prev with | none => true | some p => !pyWordChar p) &&
        isDigitC a && isDigitC b && isDigitC c && isDigitC d &&
        (match rest with | [] => true | e :: _ => !pyWordChar e) then
      String.mk [a, b, c, d] :: findStockCodes (some d) rest
    else findStockCodes (some a) (b :: c :: d :: rest)
  | _, [a, b, c] => findStockCodes (some a) [b, c]
  | _, [a, b] => findStockCodes (some a) [b]
  | _, [_] => []
  | _, [] => []

/-- The keyword loop of `is_shallow_article`: a roundup/ranking keyword in
the text flags the item unless the subject's company name or cleaned symbol
occurs in the title (`continue`). -/
def shallowKeywordHit (text title : String) (company_name symbol : Option String) :
    List String → Bool
  | [] => false
  | kw :: rest =>
    if strContains text kw then
      if pyTruthyOS company_name &&
          strContains title (pyLower (company_name.getD "")) then
        shallowKeywordHit text title company_name symbol rest
      else if pyTruthyOS symbol &&
          strContains title (pyLower (pyStrip (strReplace (symbol.getD "") ".T" ""))) then
        shallowKeywordHit text title company_name symbol rest
      else true
    else shallowKeywordHit text title company_name symbol rest

/-- The multi-stock-code heuristic of `is_shallow_article`. -/
def stockCodeShallow (cfg : NewsSearchConfig) (text : String)
    (symbol : Option String) : Bool :=
  if pyTruthyOS symbol then
    let symbol_clean := pyStrip (strReplace (symbol.getD "") ".T" "")
    if pyIsDigitStr symbol_clean then
      let stock_codes := findStockCodes none text.toList
      if stock_codes.length ≥ cfg.filtering.min_stock_codes then
        if !stock_codes.contains symbol_clean then true
        else if stock_codes.dedup.length ≥ cfg.filtering.min_stock_codes then true
        else false
      else false
    else false
  else false

def is_shallow_article (cfg : NewsSearchConfig) (item : NewsItem)
    (company_name symbol : Option String) : Bool :=
  let title := pyLower item.title
  let snippet := pyLower item.snippet
  let text := title ++ " " ++ snippet
  if shallowKeywordHit text title company_name symbol
      (cfg.kws.shallow_ja ++ cfg.kws.shallow_en) then true
  else stockCodeShallow cfg text symbol

/-! ## Ranking (`sort_news_by_importance_and_date`) -/

/-- `parsed_date.timestamp()` used as the sort key's third component:
missing/unparseable dates count as the 1970 epoch (0). -/
def newsTimestamp (now : Int) (item : NewsItem) : Int :=
  match item.published with
  | none => 0
  | some ds =>
    if ds = "" then 0
    else
      match parse_news_date now (some ds) with
      | some dt => dt.sec
      | none => 0

def newsSortKey (cfg : NewsSearchConfig) (now : Int)
    (company_name symbol query : Option String) (item : NewsItem) :
    Int × Int × Int :=
  (calculate_news_importance_score cfg item,
   calculate_focus_score cfg item company_name symbol query,
   newsTimestamp now item)

/-- Ascending lexicographic order on `(-importance, -focus, -timestamp)`
(for `reverse = True`), i.e. descending on the key triple. -/
def sortKeyLE (a b : Int × Int × Int) : Bool :=
  if a.1 ≠ b.1 then b.1 < a.1
  else if a.2.1 ≠ b.2.1 then b.2.1 < a.2.1
  else b.2.2 ≤ a.2.2

/-- Stable insertion into a sorted list (`le` a total preorder). -/
def orderedInsertB (le : α → α → Bool) (a : α) : List α → List α
  | [] => [a]
  | b :: l => if le a b then a :: b :: l else b :: orderedInsertB le a l

/-- Stable sort.  Python's `sorted` is also a stable sort on the same key,
and stable sorts under a total preorder agree, so this models `sorted`
exactly. -/
def insertionSortB (le : α → α → Bool) : List α → List α
  | [] => []
  | a :: l => orderedInsertB le a (insertionSortB le l)

/-- `sort_news_by_importance_and_date(..., reverse=True, ...)`: a stable
sort on the tuple key, as Python's `sorted`. -/
def sort_news_by_importance_and_date (cfg : NewsSearchConfig) (now : Int)
    (news_items : List NewsItem) (company_name symbol query : Option String) :
    List NewsItem :=
  insertionSortB
    (fun x y =>
      sortKeyLE (newsSortKey cfg now company_name symbol query x)
        (newsSortKey cfg now company_name symbol query y))
    news_items

/-! ## Recency filter (`filter_recent_news`) -/

def filter_recent_news (now : Int) (days_threshold : Int)
    (news_items : List NewsItem) : List NewsItem :=
  news_items.filter (fun item =>
    match item.published with
    | none => true
    | some ds =>
      if ds = "" then true
      else
        match parse_news_date now (some ds) with
        | some dt => dt.sec ≥ now - days_threshold * 86400
        | none => true)

/-! ## The retrieval session (`fetch_news`) -/

/-- One raw hit as returned by `ddgs.news` (`item.get(...)` fields). -/
structure RawHit where
  title : String := ""
  url : String := ""
  body : Option String := none
  snippet : Option String := none
  date : Option String := none
  source : Option String := none
deriving DecidableEq, Repr

structure SearchCall where
  keywords : String
  region : String
  max_results : Int
deriving DecidableEq, Repr

/-- Outcome of one `ddgs.news` call: a raised exception (any failure inside
the `try` block, including `DDGS` construction) or a hit list. -/
inductive SearchOutcome where
  | err : String → SearchOutcome
  | ok : List RawHit → SearchOutcome

/-- Collaborators of one `fetch_news` run.  `search` is indexed by the
number of prior search calls, so successive calls may differ;
`japaneseName` is `get_japanese_company_name_cached` (total: every failure
path inside it returns `None`); `article` is `fetch_article_content`
(total: its whole body is `try/except`-wrapped, returning `None`). -/
structure FetchEnv where
  search : Nat → SearchCall → SearchOutcome
  japaneseName : Option String
  article : String → Option String

structure Session where
  news_items : List NewsItem := []
  seen_urls : List String := []
  errors : List String := []
  calls : Nat := 0

/-- `a or b or ""` on optional strings. -/
def pyOrS (a b : Option String) : String :=
  if pyTruthyOS a then a.getD "" else if pyTruthyOS b then b.getD "" else ""

/-- The per-hit insertion loop: skip when the URL is missing, already seen,
or the title is missing; otherwise record the URL and append the item. -/
def insertHits (hits : List RawHit) (lang : String) (s : Session) : Session :=
  hits.foldl
    (fun s h =>
      if h.url ≠ "" && !s.seen_urls.contains h.url && h.title ≠ "" then
        { s with
          seen_urls := s.seen_urls ++ [h.url],
          news_items := s.news_items ++
            [{ title := h.title, url := h.url, snippet := pyOrS h.body h.snippet,
               published := h.date, source := h.source.getD "", language := lang }] }
      else s)
    s

def isRateLimitText (e : String) : Bool :=
  strContains e "202" || strContains (pyLower e) "ratelimit" ||
    strContains (pyLower e) "rate limit"

/-- One guarded `ddgs.news` call: on success insert the hits, on exception
log a (rate-limit-aware) error message.  Returns the new session and
whether the call succeeded. -/
def doSearch (env : FetchEnv) (s : Session) (call : SearchCall) (lang : String)
    (rateMsg : String) (errPre : String) : Session × Bool :=
  match env.search s.calls call with
  | .ok hits => (insertHits hits lang { s with calls := s.calls + 1 }, true)
  | .err e =>
    ({ s with calls := s.calls + 1,
              errors := s.errors ++
                [if isRateLimitText e then rateMsg else errPre ++ e] },
     false)

def rateMsgKw (kw : String) : String :=
  "検索キーワード '" ++ kw ++
    "' でレート制限エラーが発生しました。しばらく待ってから再試行してください。"

def errPreKw (kw : String) : String :=
  "検索キーワード '" ++ kw ++ "' でエラー: "

def rateMsgFb (q : String) : String :=
  "フォールバック検索（'" ++ q ++
    "'）でレート制限エラーが発生しました。しばらく待ってから再試行してください。"

def errPreFb (q : String) : String :=
  "フォールバック検索（'" ++ q ++ "'）でエラー: "

/-- The initial-Japanese and English query loops: stop early at
`min_required_results * 2` collected items, otherwise run each query in
order (failures logged, loop continues). -/
def runQueryList (env : FetchEnv) (bound : Nat) (region lang : String)
    (maxr : Int) : List String → Session → Session
  | [], s => s
  | kw :: rest, s =>
    if s.news_items.length ≥ bound then s
    else
      let sb := doSearch env s ⟨kw, region, maxr⟩ lang (rateMsgKw kw) (errPreKw kw)
      runQueryList env bound region lang maxr rest sb.1

/-- The broader Japanese fallback loop: same early stop, plus a `break`
once a successful call brings the total to
`max_results * fallback_sufficient_threshold_multiplier`. -/
def runFallbackList (env : FetchEnv) (bound : Nat) (sufficient : Int)
    (maxr : Int) : List String → Session → Session
  | [], s => s
  | q :: rest, s =>
    if s.news_items.length ≥ bound then s
    else
      let sb := doSearch env s ⟨q, "jp-ja", maxr⟩ "ja" (rateMsgFb q) (errPreFb q)
      if sb.2 && (sb.1.news_items.length : Int) ≥ sufficient then sb.1
      else runFallbackList env bound sufficient maxr rest sb.1

/-- The concrete Japanese-tier search keywords of one round. -/
def buildJapKeywords (cfg : NewsSearchConfig) (query : String)
    (symbol_clean japName : Option String) : List String :=
  (if pyTruthyOS japName then
    cfg.keywords.japanese_search_templates.map (fun t => t (japName.getD ""))
   else []) ++
  (if pyTruthyOS symbol_clean && pyIsDigitStr (symbol_clean.getD "") then
    cfg.keywords.japanese_symbol_templates.map (fun t => t (symbol_clean.getD "")) ++
    (if pyTruthyOS japName then
      cfg.keywords.japanese_combined_templates.map
        (fun t => t (symbol_clean.getD "") (japName.getD ""))
     else [])
   else []) ++
  cfg.keywords.japanese_search_templates.map (fun t => t query)

/-- The broader fallback queries of one round. -/
def buildFallbackQueries (query : String) (symbol_clean japName : Option String) :
    List String :=
  (if pyTruthyOS japName then [japName.getD ""] else []) ++
  (if pyTruthyOS symbol_clean && pyIsDigitStr (symbol_clean.getD "") then
    [symbol_clean.getD ""]
   else []) ++
  [query]

/-- The Japanese part of one retry round: the initial tier, then — unless
already at twice the floor — the broader fallback tier when still below the
floor. -/
def runJapPhase (env : FetchEnv) (cfg : NewsSearchConfig) (query : String)
    (symbol_clean japName : Option String) (effMax : Int) (s : Session) :
    Session :=
  let minReq := cfg.search.min_required_results
  let s :=
    runQueryList env (minReq * 2) "jp-ja" "ja"
      (max (effMax * cfg.search.mult_initial_japanese)
        cfg.search.minc_initial_japanese)
      (buildJapKeywords cfg query symbol_clean japName) s
  if s.news_items.length ≥ minReq * 2 then s
  else if s.news_items.length < minReq then
    runFallbackList env (minReq * 2)
      (effMax * cfg.filtering.fallback_sufficient_threshold_multiplier)
      (max (effMax * cfg.search.mult_fallback_japanese)
        cfg.search.minc_fallback_japanese)
      (buildFallbackQueries query symbol_clean japName) s
  else s

/-- One full retry round of `fetch_news`'s search phase. -/
def runRound (env : FetchEnv) (cfg : NewsSearchConfig) (query : String)
    (symbol_clean japName : Option String) (isJap : Bool) (effMax : Int)
    (s : Session) : Session :=
  let minReq := cfg.search.min_required_results
  let s :=
    if isJap then runJapPhase env cfg query symbol_clean japName effMax s else s
  if !isJap || s.news_items.length < minReq then
    runQueryList env (minReq * 2) "us-en" "en"
      (max (effMax * cfg.search.mult_english) cfg.search.minc_english)
      (cfg.keywords.english_search_templates.map (fun t => t query)) s
  else s

/-- The retry loop: up to `max_retries` rounds, stopping once
`min_required_results` items are collected. -/
def runRetries (env : FetchEnv) (cfg : NewsSearchConfig) (query : String)
    (symbol_clean japName : Option String) (isJap : Bool) (effMax : Int) :
    Nat → Session → Session
  | 0, s => s
  | n + 1, s =>
    let s' := runRound env cfg query symbol_clean japName isJap effMax s
    if s'.news_items.length ≥ cfg.search.min_required_results then s'
    else runRetries env cfg query symbol_clean japName isJap effMax n s'

/-- The content-enrichment step for one surviving item
(`fetch_article_content` modelled by `env.article`). -/
def enrichItem (env : FetchEnv) (item : NewsItem) : NewsItem :=
  if item.url ≠ "" && item.snippet ≠ "" then
    match env.article item.url with
    | some fc =>
      if fc ≠ "" then { item with snippet := fc, full_content_fetched := some true }
      else { item with full_content_fetched := some false }
    | none => { item with full_content_fetched := some false }
  else item

/-- `fetch_news` after the `max_results` sentinel has been resolved to the
effective truncation limit `effMax`. -/
def fetch_news_core (env : FetchEnv) (cfg : NewsSearchConfig) (now : Int)
    (query : String) (symbol : Option String) (effMax : Int) : List NewsItem :=
  let symInfo : Bool × Option String :=
    if pyTruthyOS symbol then
      let sy := symbol.getD ""
      let symbol_upper := pyStrip (pyUpper sy)
      if symbol_upper.endsWith ".T" ||
          (pyIsDigitStr symbol_upper && 4 ≤ symbol_upper.length &&
            symbol_upper.length ≤ 5) then
        (true, some (pyStrip (strReplace sy ".T" "")))
      else (false, none)
    else (false, none)
  let isJap := symInfo.1
  let symbol_clean := symInfo.2
  let japName :=
    if isJap && pyTruthyOS symbol_clean then env.japaneseName else none
  let s :=
    runRetries env cfg query symbol_clean japName isJap effMax
      cfg.search.max_retries {}
  let items := filter_recent_news now cfg.filtering.date_threshold_days s.news_items
  let items := items.filter (fun it => !is_shallow_article cfg it japName symbol)
  let cn : Option String :=
    some (if pyTruthyOS japName then japName.getD "" else query)
  let items := sort_news_by_importance_and_date cfg now items cn symbol (some query)
  let items :=
    items.filter (fun it =>
      !(calculate_focus_score cfg it cn symbol (some query) == 0 &&
        calculate_news_importance_score cfg it <
          cfg.filtering.min_importance_score_when_focus_zero))
  let items := pySliceTo effMax items
  items.map (enrichItem env)

/-- `fetch_news` (`app.py`): empty query short-circuits; a passed
`max_results` of exactly 15 is replaced by the configured
`search.max_results`. -/
def fetch_news (env : FetchEnv) (cfg : NewsSearchConfig) (now : Int)
    (query : String) (symbol : Option String) (max_results : Int) :
    List NewsItem :=
  if query = "" then []
  else
    fetch_news_core env cfg now query symbol
      (if max_results ≠ 15 then max_results else cfg.search.max_results)

/-! ## The built-in default configuration (`load_news_search_config`) -/

def defaultNewsSearchConfig : NewsSearchConfig :=
  { search := {},
    keywords :=
      { japanese_search_templates :=
          [fun n => n ++ " 決算 業績", fun n => n ++ " 決算発表",
           fun n => n ++ " 業績発表", fun n => n ++ " IR 投資家向け説明会",
           fun n => n ++ " 株主総会", fun n => n ++ " M&A 買収 合併",
           fun n => n ++ " 大型投資 戦略発表", fun n => n ++ " 株価 ニュース",
           fun n => n ++ " 株 最新", fun n => n ++ " 企業 ニュース",
           fun n => n ++ " 最新ニュース"],
        japanese_symbol_templates :=
          [fun sy => sy ++ " 株価", fun sy => sy ++ " ニュース",
           fun sy => sy ++ " 決算", fun sy => sy ++ " 業績"],
        japanese_combined_templates :=
          [fun sy n => sy ++ " " ++ n, fun sy n => n ++ " " ++ sy],
        english_search_templates :=
          [fun q => q ++ " earnings results", fun q => q ++ " quarterly results",
           fun q => q ++ " financial results", fun q => q ++ " acquisition merger",
           fun q => q ++ " strategic announcement", fun q => q ++ " stock news",
           fun q => q ++ " stock"] },
    scoring := {},
    kws :=
      { shallow_ja :=
          ["ランキング", "トップ", "上位", "ベスト", "ワースト",
           "市場動向", "相場概況", "市況", "マーケットサマリー",
           "株価ランキング", "上昇ランキング", "下落ランキング",
           "注目銘柄", "人気銘柄", "急騰銘柄", "急落銘柄",
           "日経平均", "TOPIX", "ダウ平均", "ナスダック",
           "市場総括", "相場総括", "市況レポート",
           "複数銘柄", "多数銘柄", "各銘柄", "各社"],
        shallow_en :=
          ["ranking", "top", "best", "worst", "list",
           "market overview", "market summary", "market wrap",
           "stock ranking", "gainers", "losers", "most active",
           "market movers", "market recap", "daily wrap",
           "multiple stocks", "several stocks", "various stocks"],
        important_ja :=
          ["決算", "業績", "業績発表", "決算発表", "決算説明会",
           "ir", "投資家向け説明会", "株主総会",
           "m&a", "買収", "合併", "統合", "提携",
           "大型投資", "戦略発表", "経営方針", "中期経営計画",
           "上場", "ipo", "増資", "減資", "配当",
           "不祥事", "コンプライアンス", "リコール"],
        important_en :=
          ["earnings", "quarterly", "annual", "results", "financial results",
           "acquisition", "merger", "m&a", "partnership",
           "ipo", "dividend", "buyback", "strategic",
           "recall", "scandal", "compliance"],
        deep_ja :=
          ["戦略", "経営方針", "中期経営計画", "事業戦略",
           "業績分析", "財務分析", "投資判断", "投資評価",
           "競争力", "競合分析", "市場シェア", "事業展開",
           "IR説明会", "決算説明会", "投資家説明会"],
        deep_en :=
          ["strategy", "business plan", "financial analysis",
           "investment thesis", "competitive", "market share",
           "earnings call", "investor day", "analyst meeting"] },
    filtering := {} }

/-! ## Result accessors and concrete fixtures -/

/-- Field access on an analysis result (`result["k"]` / `result.get("k")`). -/
def resGet (j : PyJson) (k : String) : Option PyJson :=
  match j with
  | .obj kvs => objGet kvs k
  | _ => none

/-- The snapshot of claim C4: price 150, previous close 140, target mean
price 165, recommendation `"buy"`; `day_change_pct` and `target_gap_pct`
are computed by `fetch_ticker_snapshot`'s formulas
`(price - prev_close) / prev_close * 100` and
`(target_mean_price - price) / price * 100`. -/
def snapshotC4 : Snapshot :=
  { symbol := "TEST", company_name := "Test Corp",
    price := some 150, previous_close := some 140,
    day_change := some (150 - 140),
    day_change_pct := some ((150 - 140) / 140 * 100),
    analyst :=
      { recommendation_key := some "buy",
        target_mean_price := some 165,
        target_gap_pct := some ((165 - 150) / 150 * 100) } }

/-- AI environment in which both provider transports raise. -/
def errAIEnv : AIEnv :=
  { genaiAvailable := true,
    geminiMessage := .error "transport failure",
    openaiMessage := .error "transport failure" }

/-- Gemini returns a good JSON object; the OpenAI transport would raise. -/
def gemOkAIEnv : AIEnv :=
  { genaiAvailable := true,
    geminiMessage := .ok (some "\x7b\"verdict_short\": \"v\"\x7d"),
    openaiMessage := .error "transport failure" }

/-- Gemini returns `"\x7b\x7d"` — valid JSON, but a falsy (empty) object;
OpenAI returns a good JSON object. -/
def gemEmptyObjAIEnv : AIEnv :=
  { genaiAvailable := true,
    geminiMessage := .ok (some "\x7b\x7d"),
    openaiMessage := .ok (some "\x7b\"verdict_short\": \"v\"\x7d") }

/-- Gemini returns a JSON object whose score is far outside [0, 100]. -/
def gemScore250AIEnv : AIEnv :=
  { genaiAvailable := true,
    geminiMessage := .ok (some "\x7b\"score\": 250\x7d"),
    openaiMessage := .error "transport failure" }

/-- Fetch environment in which every search call raises. -/
def errFetchEnv : FetchEnv :=
  { search := fun _ _ => .err "boom",
    japaneseName := none,
    article := fun _ => none }

/-- A single well-formed search hit about the query "tesla". -/
def teslaHit : RawHit :=
  { title := "tesla earnings update", url := "http://news/tesla-1",
    body := some "tesla results body", date := none, source := some "wire" }

/-- Fetch environment whose every search call returns `teslaHit`. -/
def teslaFetchEnv : FetchEnv :=
  { search := fun _ _ => .ok [teslaHit],
    japaneseName := none,
    article := fun _ => none }

/-- Default configuration with `min_required_results` lowered to 1 (a
well-formed configuration; keeps concrete runs small). -/
def smallCfg : NewsSearchConfig :=
  { defaultNewsSearchConfig with
    search := { defaultNewsSearchConfig.search with min_required_results := 1 } }

/-- The item of claim C7's counterexample: the subject's company name and
cleaned symbol both occur in the title, the text contains roundup
vocabulary, and the text mentions three distinct four-digit codes. -/
def shallowC7Item : NewsItem :=
  { title := "acme 1234 ranking", url := "http://u", snippet := "codes 5678 and 9012 here",
    published := none, source := "", language := "en" }

/-- Like `gemOkAIEnv` but with a different OpenAI transport outcome (used to
exhibit that the result does not depend on the OpenAI collaborator). -/
def gemOkAIEnv2 : AIEnv :=
  { gemOkAIEnv with openaiMessage := .ok (some "\x7b\"other\": 1\x7d") }


/-- The single item `fetch_news` returns in the `teslaFetchEnv`/`smallCfg`
run (the hit, enriched with `full_content_fetched := false` since the
article fetch yields nothing). -/
def teslaResultItem : NewsItem :=
  { title := "tesla earnings update", url := "http://news/tesla-1",
    snippet := "tesla results body", published := none, source := "wire",
    language := "en", full_content_fetched := some false }


/-! # Theorems -/

/-! ## Generic dictionary lemmas -/

theorem objGet_objSet_self (kvs : List (String × PyJson)) (k : String) (v : PyJson) :
    objGet (objSet kvs k v) k = some v := by
  induction kvs with
  | nil => simp [objSet, objGet]
  | cons kv rest ih =>
    obtain ⟨k', v'⟩ := kv
    by_cases h : k' = k
    · simp [objSet, objGet, h]
    · simp [objSet, objGet, h, ih]

theorem objGet_objSet_ne (kvs : List (String × PyJson)) (k k' : String) (v : PyJson)
    (h : k' ≠ k) : objGet (objSet kvs k' v) k = objGet kvs k := by
  induction kvs with
  | nil => simp [objSet, objGet, h]
  | cons kv rest ih =>
    obtain ⟨k'', v''⟩ := kv
    by_cases h2 : k'' = k'
    · simp [objSet, objGet, h2, h]
    · simp only [objSet, h2, if_false]
      by_cases h3 : k'' = k
      · simp [objGet, h3]
      · simp [objGet, h3, ih]

theorem objSet_ne_nil (kvs : List (String × PyJson)) (k : String) (v : PyJson) :
    objSet kvs k v ≠ [] := by
  cases kvs with
  | nil => simp [objSet]
  | cons kv rest =>
    simp only [objSet]
    split <;> simp

/-! ## Heuristic-result lemmas -/

theorem heuristicScore_nonneg (s : Snapshot) : 0 ≤ heuristicScore s :=
  le_max_left 0 _

theorem heuristicScore_le_100 (s : Snapshot) : heuristicScore s ≤ 100 :=
  max_le (by norm_num) (min_le_left _ _)

theorem heuristicBullets_length (s : Snapshot) : (heuristicBullets s).length = 3 := by
  unfold heuristicBullets
  simp only [List.length_take, List.length_append, List.length_replicate]
  omega

theorem heuristic_source (s : Snapshot) :
    resGet (heuristic_analysis s) "source" = some (.str "heuristic") := rfl

theorem heuristic_score_field (s : Snapshot) :
    resGet (heuristic_analysis s) "score" = some (.int (heuristicScore s)) := rfl

theorem heuristic_bullets_field (s : Snapshot) :
    resGet (heuristic_analysis s) "bullet_points" =
      some (.arr ((heuristicBullets s).map .str)) := rfl

/-! ## Claim C4 -/

theorem heuristicScore_snapshotC4 : heuristicScore snapshotC4 = 70 := by
  have h1 : (snapshotC4.analyst.target_gap_pct.getD 0 : ℚ) = 10 := by
    norm_num [snapshotC4]
  have h2 : (snapshotC4.day_change_pct.getD 0 : ℚ) = 50/7 := by
    norm_num [snapshotC4]
  have h3 : pyLower (snapshotC4.analyst.recommendation_key.getD "") = "buy" := by decide
  have habs : |(50:ℚ)/7| = 50/7 := by norm_num
  simp only [heuristicScore, h1, h2, h3, habs, String.reduceEq, reduceIte, if_true]
  have h4 : ((55 + min ((10:ℚ) * (6 / 10)) 20 ⊔ -20 -
        (min ((50:ℚ) / 7 * (3 / 10)) 10 ⊔ 0) * if (50:ℚ) / 7 < 0 then 1 else -(1 / 2)) +
        (8:ℚ)) = 981/14 := by
    norm_num [min_def, max_def]
  rw [h4]
  have h5 : pyRound (981/14 : ℚ) = 70 := by
    unfold pyRound
    norm_num
  rw [h5]
  norm_num [min_def, max_def]

/-- Claim C4, counterexample: on the claimed snapshot (price 150, previous
close 140, target mean 165, recommendation "buy") the heuristic score is
70, not the claimed 67: the day-move term is a *bonus* of
`+ clamp(|dayChangePct|·0.3, 0, 10) · 0.5 ≈ +1.07` when the day move is
positive (the code subtracts the term multiplied by −0.5), so the raw
score is `55 + 6 + 15/14 + 8 = 981/14 ≈ 70.07 → 70`. -/
theorem claim_C4_counterexample :
    resGet (heuristic_analysis snapshotC4) "score" = some (.int 70) ∧
    resGet (heuristic_analysis snapshotC4) "score" ≠ some (.int 67) := by
  have h := heuristic_score_field snapshotC4
  rw [heuristicScore_snapshotC4] at h
  exact ⟨h, by rw [h]; simp⟩

/-- Claim C4, amended: on that snapshot the heuristic computes score **70**
(`55 + 6 + 15/14 + 8 ≈ 70.07`, rounded) and action `"Buy"`. -/
theorem claim_C4 :
    resGet (heuristic_analysis snapshotC4) "score" = some (.int 70) ∧
    resGet (heuristic_analysis snapshotC4) "action" = some (.str "Buy") := by
  constructor
  · have h := heuristic_score_field snapshotC4
    rw [heuristicScore_snapshotC4] at h
    exact h
  · show some (PyJson.str (heuristicVerdictAction (heuristicScore snapshotC4)).1) =
      some (PyJson.str "Buy")
    rw [heuristicScore_snapshotC4]
    rfl

/-! ## Provider-chain lemmas -/

theorem sanitize_source (kvs kvs' : List (String × PyJson)) (tag : String)
    (h : _sanitize_ai_response (objSet kvs "source" (.str tag)) = some kvs') :
    objGet kvs' "source" = some (.str tag) ∧ kvs' ≠ [] := by
  simp only [_sanitize_ai_response] at h
  split at h
  · simp only [Option.some_inj] at h
    subst h
    exact ⟨by rw [objGet_objSet_ne _ _ _ _ (by decide), objGet_objSet_self],
      objSet_ne_nil _ _ _⟩
  · simp only [Option.some_inj] at h
    subst h
    exact ⟨by rw [objGet_objSet_ne _ _ _ _ (by decide), objGet_objSet_self],
      objSet_ne_nil _ _ _⟩
  · exact absurd h (by simp)

theorem request_gemini_success (loads : String → Option PyJson) (env : AIEnv)
    (key : Option String) (payload : AnalysisPayload) (mn : Option String)
    (r : PyJson)
    (h : request_gemini_analysis loads env key payload mn = some r) :
    pyTruthy r = true ∧ resGet r "source" = some (.str "gemini") := by
  simp only [request_gemini_analysis] at h
  iterate 10 (all_goals try split at h)
  all_goals try exact Option.noConfusion h
  rename_i kvs' hsan
  obtain rfl : PyJson.obj kvs' = r := Option.some.inj h
  obtain ⟨h1, h2⟩ := sanitize_source _ _ _ hsan
  exact ⟨by simpa [pyTruthy] using h2, h1⟩

theorem request_openai_success (loads : String → Option PyJson) (env : AIEnv)
    (key : Option String) (payload : AnalysisPayload) (r : PyJson)
    (h : request_openai_analysis loads env key payload = some r) :
    pyTruthy r = true ∧ resGet r "source" = some (.str "openai") := by
  simp only [request_openai_analysis] at h
  iterate 10 (all_goals try split at h)
  all_goals try exact Option.noConfusion h
  rename_i kvs' hsan
  obtain rfl : PyJson.obj kvs' = r := Option.some.inj h
  obtain ⟨h1, h2⟩ := sanitize_source _ _ _ hsan
  exact ⟨by simpa [pyTruthy] using h2, h1⟩

theorem request_gemini_error (loads : String → Option PyJson) (env : AIEnv)
    (key : Option String) (payload : AnalysisPayload) (mn : Option String)
    (e : String) (h : env.geminiMessage = .error e) :
    request_gemini_analysis loads env key payload mn = none := by
  simp only [request_gemini_analysis, h]
  split
  · rfl
  · split
    · rfl
    · rfl

theorem request_openai_error (loads : String → Option PyJson) (env : AIEnv)
    (key : Option String) (payload : AnalysisPayload)
    (e : String) (h : env.openaiMessage = .error e) :
    request_openai_analysis loads env key payload = none := by
  simp only [request_openai_analysis, h]
  split
  · rfl
  · rfl

theorem generate_eq_fallback (loads : String → Option PyJson) (env : AIEnv)
    (okey gkey : Option String) (snapshot : Snapshot) (news : List NewsItem)
    (mn : Option String)
    (hg : request_gemini_analysis loads env (some (pyStrip (gkey.getD "")))
      (build_analysis_payload snapshot news) mn = none)
    (ho : request_openai_analysis loads env (some (pyStrip (okey.getD "")))
      (build_analysis_payload snapshot news) = none) :
    generate_ai_analysis loads env okey gkey snapshot news mn =
      heuristic_analysis snapshot := by
  simp only [generate_ai_analysis, hg, ho]
  split <;> split <;> rfl

theorem generate_result (loads : String → Option PyJson) (env : AIEnv)
    (okey gkey : Option String) (snapshot : Snapshot) (news : List NewsItem)
    (mn : Option String) :
    generate_ai_analysis loads env okey gkey snapshot news mn =
        heuristic_analysis snapshot ∨
    (∃ r, request_gemini_analysis loads env (some (pyStrip (gkey.getD "")))
        (build_analysis_payload snapshot news) mn = some r ∧
      generate_ai_analysis loads env okey gkey snapshot news mn = r) ∨
    (∃ r, request_openai_analysis loads env (some (pyStrip (okey.getD "")))
        (build_analysis_payload snapshot news) = some r ∧
      generate_ai_analysis loads env okey gkey snapshot news mn = r) := by
  simp only [generate_ai_analysis]
  by_cases hgk : pyStrip (gkey.getD "") = ""
  · simp only [hgk, ne_eq, not_true_eq_false, if_false]
    by_cases hok : pyStrip (okey.getD "") = ""
    · simp only [hok, ne_eq, not_true_eq_false, if_false]
      left; trivial
    · simp only [ne_eq, hok, not_false_eq_true, if_true]
      rcases hro : request_openai_analysis loads env (some (pyStrip (okey.getD "")))
          (build_analysis_payload snapshot news) with _ | r
      · left; trivial
      · by_cases ht : pyTruthy r
        · right; right
          exact ⟨r, rfl, by simp [ht]⟩
        · left; simp [ht]
  · simp only [ne_eq, hgk, not_false_eq_true, if_true]
    rcases hrg : request_gemini_analysis loads env (some (pyStrip (gkey.getD "")))
        (build_analysis_payload snapshot news) mn with _ | r
    · by_cases hok : pyStrip (okey.getD "") = ""
      · simp only [hok, ne_eq, not_true_eq_false, if_false]
        left; trivial
      · simp only [ne_eq, hok, not_false_eq_true, if_true]
        rcases hro : request_openai_analysis loads env (some (pyStrip (okey.getD "")))
            (build_analysis_payload snapshot news) with _ | r
        · left; trivial
        · by_cases ht : pyTruthy r
          · right; right
            exact ⟨r, rfl, by simp [ht]⟩
          · left; simp [ht]
    · by_cases ht : pyTruthy r
      · right; left
        exact ⟨r, rfl, by simp [ht]⟩
      · by_cases hok : pyStrip (okey.getD "") = ""
        · simp only [ht, if_false, hok, ne_eq, not_true_eq_false]
          left; simp
        · simp only [ht, if_false, ne_eq, hok, not_false_eq_true, if_true]
          rcases hro : request_openai_analysis loads env (some (pyStrip (okey.getD "")))
              (build_analysis_payload snapshot news) with _ | r'
          · left; simp
          · by_cases ht' : pyTruthy r'
            · right; right
              exact ⟨r', rfl, by simp [ht, ht']⟩
            · left; simp [ht, ht']

/-! ## Claim C1 -/

/-- Claim C1, counterexample: with both keys present and the genai module
available, Gemini returns `"\x7b\x7d"` — a payload that parses as valid JSON
(the empty object) — yet `generate_ai_analysis` does not return a
Gemini-sourced result: the empty dict is falsy, `request_gemini_analysis`
treats it as a failure, and the OpenAI provider is invoked (the result is
OpenAI-sourced). -/
theorem claim_C1_counterexample :
    parse_ai_json_payload jsonLoads (some "\x7b\x7d") = some (.obj []) ∧
    resGet (generate_ai_analysis jsonLoads gemEmptyObjAIEnv (some "okk")
      (some "gkk") snapshotC4 [] none) "source" = some (.str "openai") :=
  ⟨by with_unfolding_all rfl, by with_unfolding_all rfl⟩

/-- Claim C1, amended: if the Gemini attempt *succeeds* (its payload parses
as a truthy JSON object and tagging/truncation raise nothing — rather than
merely "parses as valid JSON"), then `generate_ai_analysis` returns exactly
that result, tagged `source = "gemini"`, and the outcome is independent of
the OpenAI collaborator (any environment agreeing on the genai module and
the Gemini transport yields the same result): OpenAI is never invoked.  The
OpenAI attempt is reached only when the Gemini attempt was skipped or
returned no result. -/
theorem claim_C1 (loads : String → Option PyJson) (env env' : AIEnv)
    (okey gkey : Option String) (snapshot : Snapshot) (news : List NewsItem)
    (mn : Option String) (r : PyJson)
    (hav : env'.genaiAvailable = env.genaiAvailable)
    (hm : env'.geminiMessage = env.geminiMessage)
    (hg : request_gemini_analysis loads env (some (pyStrip (gkey.getD "")))
      (build_analysis_payload snapshot news) mn = some r) :
    generate_ai_analysis loads env okey gkey snapshot news mn = r ∧
    resGet r "source" = some (.str "gemini") ∧
    generate_ai_analysis loads env' okey gkey snapshot news mn = r := by
  obtain ⟨ht, hsrc⟩ := request_gemini_success _ _ _ _ _ _ hg
  have hk : ¬(pyStrip (gkey.getD "") = "") := by
    intro hk0
    rw [hk0] at hg
    simp only [request_gemini_analysis] at hg
    split at hg
    · exact Option.noConfusion hg
    · split at hg
      · exact Option.noConfusion hg
      · rename_i hne
        exact hne (by decide)
  have hg' : request_gemini_analysis loads env' (some (pyStrip (gkey.getD "")))
      (build_analysis_payload snapshot news) mn = some r := by
    unfold request_gemini_analysis
    rw [hav, hm]
    exact hg
  refine ⟨?_, hsrc, ?_⟩
  · simp only [generate_ai_analysis, ne_eq, hk, not_false_eq_true, if_true, hg, ht]
  · simp only [generate_ai_analysis, ne_eq, hk, not_false_eq_true, if_true, hg', ht]

/-- Claim C1, witness: a concrete run where Gemini answers with a good JSON
object while the two environments differ in their OpenAI outcomes (one
raises, one answers). -/
theorem claim_C1_witness :
    generate_ai_analysis jsonLoads gemOkAIEnv (some "okk") (some "gkk")
        snapshotC4 [] none =
      .obj [("verdict_short", .str "v"), ("source", .str "gemini"),
            ("bullet_points", .arr [])] ∧
    resGet (.obj [("verdict_short", .str "v"), ("source", .str "gemini"),
            ("bullet_points", .arr [])]) "source" = some (.str "gemini") ∧
    generate_ai_analysis jsonLoads gemOkAIEnv2 (some "okk") (some "gkk")
        snapshotC4 [] none =
      .obj [("verdict_short", .str "v"), ("source", .str "gemini"),
            ("bullet_points", .arr [])] :=
  claim_C1 jsonLoads gemOkAIEnv gemOkAIEnv2 (some "okk") (some "gkk")
    snapshotC4 [] none _ rfl rfl (by with_unfolding_all rfl)

/-! ## Claim C2 -/

/-- Claim C2: when no API key is set or every provider attempt fails (both
stated as: each request function returns no result, which covers blank
keys, transport errors, empty messages, and unparseable JSON),
`generate_ai_analysis` returns the heuristic result: `source` is
`"heuristic"`, the score is an integer in [0, 100] and there are exactly
three bullet points.  The heuristic stage is a pure function of the
snapshot alone (no collaborator appears in `heuristic_analysis`), so it
always succeeds and makes no network call. -/
theorem claim_C2 (loads : String → Option PyJson) (env : AIEnv)
    (okey gkey : Option String) (snapshot : Snapshot) (news : List NewsItem)
    (mn : Option String)
    (hg : request_gemini_analysis loads env (some (pyStrip (gkey.getD "")))
      (build_analysis_payload snapshot news) mn = none)
    (ho : request_openai_analysis loads env (some (pyStrip (okey.getD "")))
      (build_analysis_payload snapshot news) = none) :
    generate_ai_analysis loads env okey gkey snapshot news mn =
      heuristic_analysis snapshot ∧
    resGet (generate_ai_analysis loads env okey gkey snapshot news mn) "source" =
      some (.str "heuristic") ∧
    (∃ n : Int,
      resGet (generate_ai_analysis loads env okey gkey snapshot news mn) "score" =
        some (.int n) ∧ 0 ≤ n ∧ n ≤ 100) ∧
    (∃ bs : List PyJson,
      resGet (generate_ai_analysis loads env okey gkey snapshot news mn)
        "bullet_points" = some (.arr bs) ∧ bs.length = 3) := by
  have hmain := generate_eq_fallback loads env okey gkey snapshot news mn hg ho
  refine ⟨hmain, ?_, ?_, ?_⟩
  · rw [hmain]; exact heuristic_source snapshot
  · rw [hmain]
    exact ⟨heuristicScore snapshot, heuristic_score_field snapshot,
      heuristicScore_nonneg snapshot, heuristicScore_le_100 snapshot⟩
  · rw [hmain]
    exact ⟨(heuristicBullets snapshot).map .str, heuristic_bullets_field snapshot,
      by simp [heuristicBullets_length]⟩

/-- Claim C2, witness: both providers raise transport errors; the result is
the heuristic analysis of the snapshot. -/
theorem claim_C2_witness :
    generate_ai_analysis jsonLoads errAIEnv (some "okk") (some "gkk")
        snapshotC4 [] none = heuristic_analysis snapshotC4 ∧
    resGet (generate_ai_analysis jsonLoads errAIEnv (some "okk") (some "gkk")
        snapshotC4 [] none) "source" = some (.str "heuristic") ∧
    (∃ n : Int,
      resGet (generate_ai_analysis jsonLoads errAIEnv (some "okk") (some "gkk")
        snapshotC4 [] none) "score" = some (.int n) ∧ 0 ≤ n ∧ n ≤ 100) ∧
    (∃ bs : List PyJson,
      resGet (generate_ai_analysis jsonLoads errAIEnv (some "okk") (some "gkk")
        snapshotC4 [] none) "bullet_points" = some (.arr bs) ∧ bs.length = 3) :=
  claim_C2 jsonLoads errAIEnv (some "okk") (some "gkk") snapshotC4 [] none
    (by with_unfolding_all rfl) (by with_unfolding_all rfl)

/-! ## Claim C3 -/

/-- Claim C3, counterexample: `_sanitize_ai_response` truncates
`bullet_points` but never clamps `score`.  With Gemini answering
`\x7b"score": 250\x7d`, `generate_ai_analysis` returns a gemini-sourced result
whose score is 250, outside [0, 100]. -/
theorem claim_C3_counterexample :
    resGet (generate_ai_analysis jsonLoads gemScore250AIEnv (some "okk")
      (some "gkk") snapshotC4 [] none) "score" = some (.int 250) ∧
    resGet (generate_ai_analysis jsonLoads gemScore250AIEnv (some "okk")
      (some "gkk") snapshotC4 [] none) "source" = some (.str "gemini") ∧
    ¬((250 : Int) ≤ 100) :=
  ⟨by with_unfolding_all rfl, by with_unfolding_all rfl, by norm_num⟩

/-- Claim C3, amended: only the *heuristic* path clamps the score to
[0, 100]; a gemini- or openai-sourced result carries whatever score the
provider returned (only `bullet_points` is normalized).  Every
heuristic-sourced result of `generate_ai_analysis` is the heuristic
analysis itself and its score is an integer in [0, 100]. -/
theorem claim_C3 (loads : String → Option PyJson) (env : AIEnv)
    (okey gkey : Option String) (snapshot : Snapshot) (news : List NewsItem)
    (mn : Option String)
    (h : resGet (generate_ai_analysis loads env okey gkey snapshot news mn)
      "source" = some (.str "heuristic")) :
    generate_ai_analysis loads env okey gkey snapshot news mn =
      heuristic_analysis snapshot ∧
    (∃ n : Int,
      resGet (generate_ai_analysis loads env okey gkey snapshot news mn) "score" =
        some (.int n) ∧ 0 ≤ n ∧ n ≤ 100) := by
  rcases generate_result loads env okey gkey snapshot news mn with
    hmain | ⟨r, hreq, heq⟩ | ⟨r, hreq, heq⟩
  · exact ⟨hmain, by
      rw [hmain]
      exact ⟨heuristicScore snapshot, heuristic_score_field snapshot,
        heuristicScore_nonneg snapshot, heuristicScore_le_100 snapshot⟩⟩
  · obtain ⟨-, hsrc⟩ := request_gemini_success _ _ _ _ _ _ hreq
    rw [heq] at h
    rw [hsrc] at h
    exact absurd (Option.some.inj h) (by simp)
  · obtain ⟨-, hsrc⟩ := request_openai_success _ _ _ _ _ hreq
    rw [heq] at h
    rw [hsrc] at h
    exact absurd (Option.some.inj h) (by simp)

/-- Claim C3, witness: with both transports failing, the result is
heuristic-sourced and its score is clamped. -/
theorem claim_C3_witness :
    generate_ai_analysis jsonLoads errAIEnv none none snapshotC4 [] none =
      heuristic_analysis snapshotC4 ∧
    (∃ n : Int,
      resGet (generate_ai_analysis jsonLoads errAIEnv none none snapshotC4 []
        none) "score" = some (.int n) ∧ 0 ≤ n ∧ n ≤ 100) :=
  claim_C3 jsonLoads errAIEnv none none snapshotC4 [] none
    (by with_unfolding_all rfl)

/-! ## All-collaborators-failing lemmas (claim C5) -/

theorem doSearch_err_news (env : FetchEnv) (s : Session) (call : SearchCall)
    (lang rm ep : String) (e : String) (he : env.search s.calls call = .err e) :
    (doSearch env s call lang rm ep).1.news_items = s.news_items ∧
    (doSearch env s call lang rm ep).2 = false := by
  simp [doSearch, he]

theorem runQueryList_err_news (env : FetchEnv)
    (hs : ∀ n c, ∃ e, env.search n c = .err e)
    (bound : Nat) (region lang : String) (maxr : Int) :
    ∀ (kws : List String) (s : Session),
      (runQueryList env bound region lang maxr kws s).news_items = s.news_items := by
  intro kws
  induction kws with
  | nil => intro s; rfl
  | cons kw rest ih =>
    intro s
    simp only [runQueryList]
    split
    · rfl
    · obtain ⟨e, he⟩ := hs s.calls ⟨kw, region, maxr⟩
      rw [ih _]
      exact (doSearch_err_news env s _ lang _ _ e he).1

theorem runFallbackList_err_news (env : FetchEnv)
    (hs : ∀ n c, ∃ e, env.search n c = .err e)
    (bound : Nat) (sufficient maxr : Int) :
    ∀ (qs : List String) (s : Session),
      (runFallbackList env bound sufficient maxr qs s).news_items = s.news_items := by
  intro qs
  induction qs with
  | nil => intro s; rfl
  | cons q rest ih =>
    intro s
    simp only [runFallbackList]
    split
    · rfl
    · obtain ⟨e, he⟩ := hs s.calls ⟨q, "jp-ja", maxr⟩
      obtain ⟨h1, h2⟩ := doSearch_err_news env s ⟨q, "jp-ja", maxr⟩ "ja" (rateMsgFb q) (errPreFb q) e he
      rw [h2, if_neg (by simp)]
      rw [ih _, h1]

theorem runJapPhase_err_news (env : FetchEnv)
    (hs : ∀ n c, ∃ e, env.search n c = .err e)
    (cfg : NewsSearchConfig) (query : String) (symbol_clean japName : Option String)
    (effMax : Int) (s : Session) :
    (runJapPhase env cfg query symbol_clean japName effMax s).news_items =
      s.news_items := by
  simp only [runJapPhase]
  repeat' split
  all_goals simp only [runQueryList_err_news env hs, runFallbackList_err_news env hs]

theorem runRound_err_news (env : FetchEnv)
    (hs : ∀ n c, ∃ e, env.search n c = .err e)
    (cfg : NewsSearchConfig) (query : String) (symbol_clean japName : Option String)
    (isJap : Bool) (effMax : Int) (s : Session) :
    (runRound env cfg query symbol_clean japName isJap effMax s).news_items =
      s.news_items := by
  simp only [runRound]
  repeat' split
  all_goals simp only [runQueryList_err_news env hs, runJapPhase_err_news env hs]

theorem runRetries_err_news (env : FetchEnv)
    (hs : ∀ n c, ∃ e, env.search n c = .err e)
    (cfg : NewsSearchConfig) (query : String) (symbol_clean japName : Option String)
    (isJap : Bool) (effMax : Int) :
    ∀ (n : Nat) (s : Session),
      (runRetries env cfg query symbol_clean japName isJap effMax n s).news_items =
        s.news_items := by
  intro n
  induction n with
  | zero => intro s; rfl
  | succ n ih =>
    intro s
    simp only [runRetries]
    split
    · exact runRound_err_news env hs cfg query symbol_clean japName isJap effMax s
    · rw [ih _, runRound_err_news env hs]

theorem fetch_news_err_empty (env : FetchEnv)
    (hs : ∀ n c, ∃ e, env.search n c = .err e)
    (cfg : NewsSearchConfig) (now : Int) (query : String) (symbol : Option String)
    (mr : Int) :
    fetch_news env cfg now query symbol mr = [] := by
  unfold fetch_news
  split
  · rfl
  · simp only [fetch_news_core]
    rw [runRetries_err_news env hs]
    simp [filter_recent_news, sort_news_by_importance_and_date, insertionSortB,
      pySliceTo]

/-- Claim C5: the embedded `fetch_news` and `generate_ai_analysis` are total
functions of their collaborator oracles — every `try`-guarded collaborator
call (search, page fetch, name lookup, provider transports) is modelled
with an explicit exception outcome, and each exception is consumed by the
surrounding `except` handling, never re-raised.  In the worst case — every
search call raising and both provider transports raising —
`fetch_news` returns the empty list (for any query, symbol and
`max_results`) and `generate_ai_analysis` returns the heuristic-sourced
result. -/
theorem claim_C5 (env : FetchEnv) (aenv : AIEnv) (cfg : NewsSearchConfig)
    (now : Int) (query : String) (symbol : Option String) (mr : Int)
    (loads : String → Option PyJson) (okey gkey : Option String)
    (snapshot : Snapshot) (news : List NewsItem) (mn : Option String)
    (hs : ∀ n c, ∃ e, env.search n c = .err e)
    (hg : ∃ e, aenv.geminiMessage = .error e)
    (ho : ∃ e, aenv.openaiMessage = .error e) :
    fetch_news env cfg now query symbol mr = [] ∧
    generate_ai_analysis loads aenv okey gkey snapshot news mn =
      heuristic_analysis snapshot ∧
    resGet (generate_ai_analysis loads aenv okey gkey snapshot news mn)
      "source" = some (.str "heuristic") := by
  obtain ⟨eg, hge⟩ := hg
  obtain ⟨eo, hoe⟩ := ho
  have hmain := generate_eq_fallback loads aenv okey gkey snapshot news mn
    (request_gemini_error loads aenv _ _ mn eg hge)
    (request_openai_error loads aenv _ _ eo hoe)
  exact ⟨fetch_news_err_empty env hs cfg now query symbol mr, hmain,
    by rw [hmain]; exact heuristic_source snapshot⟩

/-- Claim C5, witness: concrete all-failing environments. -/
theorem claim_C5_witness :
    fetch_news errFetchEnv defaultNewsSearchConfig 1716000000 "Sony"
      (some "6758.T") 15 = [] ∧
    generate_ai_analysis jsonLoads errAIEnv (some "okk") (some "gkk")
      snapshotC4 [] none = heuristic_analysis snapshotC4 ∧
    resGet (generate_ai_analysis jsonLoads errAIEnv (some "okk") (some "gkk")
      snapshotC4 [] none) "source" = some (.str "heuristic") :=
  claim_C5 errFetchEnv errAIEnv defaultNewsSearchConfig 1716000000 "Sony"
    (some "6758.T") 15 jsonLoads (some "okk") (some "gkk") snapshotC4 [] none
    (fun _ _ => ⟨"boom", rfl⟩) ⟨"transport failure", rfl⟩
    ⟨"transport failure", rfl⟩

/-! ## Claim C7 -/

theorem shallowKeywordHit_suppressed (text title : String)
    (cn sym : Option String)
    (h : (pyTruthyOS cn = true ∧
        strContains title (pyLower (cn.getD "")) = true) ∨
      (pyTruthyOS sym = true ∧
        strContains title (pyLower (pyStrip (strReplace (sym.getD "") ".T" ""))) = true)) :
    ∀ kws : List String, shallowKeywordHit text title cn sym kws = false := by
  intro kws
  induction kws with
  | nil => rfl
  | cons kw rest ih =>
    simp only [shallowKeywordHit]
    split
    · rcases h with ⟨h1, h2⟩ | ⟨h1, h2⟩
      · simp [h1, h2, ih]
      · by_cases hc : (pyTruthyOS cn &&
            strContains title (pyLower (cn.getD ""))) = true
        · simp [hc, ih]
        · rw [if_neg (by simpa using hc), if_pos (by simp [h1, h2]), ih]
    · exact ih

/-- Claim C7, counterexample: an item whose title contains both the
subject's company name ("acme") and its cleaned symbol ("1234") — and whose
text contains roundup vocabulary — is still classified shallow, because the
multi-stock-code heuristic (three or more distinct four-digit codes in the
text) fires regardless of the title. -/
theorem claim_C7_counterexample :
    is_shallow_article defaultNewsSearchConfig shallowC7Item (some "acme")
      (some "1234") = true ∧
    strContains (pyLower shallowC7Item.title) (pyLower "acme") = true ∧
    strContains (pyLower shallowC7Item.title)
      (pyLower (pyStrip (strReplace "1234" ".T" ""))) = true := by
  refine ⟨?_, ?_, ?_⟩ <;> decide

/-- Claim C7, amended: the subject appearing in the title suppresses only
the roundup/ranking *keyword* rule — with the company name or cleaned
symbol in the title, `is_shallow_article` reduces exactly to the
multi-stock-code heuristic, which can still classify the item shallow. -/
theorem claim_C7 (cfg : NewsSearchConfig) (item : NewsItem)
    (cn sym : Option String)
    (h : (pyTruthyOS cn = true ∧
        strContains (pyLower item.title) (pyLower (cn.getD "")) = true) ∨
      (pyTruthyOS sym = true ∧
        strContains (pyLower item.title)
          (pyLower (pyStrip (strReplace (sym.getD "") ".T" ""))) = true)) :
    is_shallow_article cfg item cn sym =
      stockCodeShallow cfg (pyLower item.title ++ " " ++ pyLower item.snippet)
        sym := by
  simp only [is_shallow_article, shallowKeywordHit_suppressed _ _ _ _ h]
  simp

/-- Claim C7, witness: on the counterexample item the equality holds with
the stock-code heuristic evaluating to `true`. -/
theorem claim_C7_witness :
    is_shallow_article defaultNewsSearchConfig shallowC7Item (some "acme")
        (some "1234") =
      stockCodeShallow defaultNewsSearchConfig
        (pyLower shallowC7Item.title ++ " " ++ pyLower shallowC7Item.snippet)
        (some "1234") ∧
    stockCodeShallow defaultNewsSearchConfig
      (pyLower shallowC7Item.title ++ " " ++ pyLower shallowC7Item.snippet)
      (some "1234") = true :=
  ⟨claim_C7 defaultNewsSearchConfig shallowC7Item (some "acme") (some "1234")
      (Or.inl ⟨by decide, by decide⟩),
    by decide⟩

/-! ## Session-invariant lemmas (claims C6 and C10) -/

theorem insertHits_inv (lang : String) :
    ∀ (hits : List RawHit) (s : Session),
    (s.news_items.map NewsItem.url).Nodup →
    (∀ u ∈ s.news_items.map NewsItem.url, u ∈ s.seen_urls) →
    (∀ it ∈ s.news_items, it.title ≠ "" ∧ it.url ≠ "") →
    ((insertHits hits lang s).news_items.map NewsItem.url).Nodup ∧
    (∀ u ∈ (insertHits hits lang s).news_items.map NewsItem.url,
      u ∈ (insertHits hits lang s).seen_urls) ∧
    (∀ it ∈ (insertHits hits lang s).news_items, it.title ≠ "" ∧ it.url ≠ "") := by
  intro hits
  induction hits with
  | nil => intro s h1 h2 h3; exact ⟨h1, h2, h3⟩
  | cons h t ih =>
    intro s h1 h2 h3
    simp only [insertHits, List.foldl_cons]
    by_cases hc : (h.url ≠ "" && !s.seen_urls.contains h.url && h.title ≠ "") = true
    · simp only [insertHits] at ih
      rw [if_pos hc]
      have hcc := hc
      simp only [Bool.and_eq_true, ne_eq, decide_eq_true_eq, Bool.not_eq_true'] at hcc
      have hnotin : h.url ∉ s.seen_urls := by
        intro hmem
        rw [← List.elem_iff] at hmem
        rw [show s.seen_urls.contains h.url = s.seen_urls.elem h.url from rfl] at hcc
        rw [hmem] at hcc
        exact Bool.noConfusion hcc.1.2
      apply ih
      · simp only [List.map_append, List.map_cons, List.map_nil]
        rw [List.nodup_append]
        refine ⟨h1, List.nodup_singleton _, ?_⟩
        rw [List.disjoint_left]
        intro u hu hu2
        simp only [List.mem_singleton] at hu2
        subst hu2
        exact hnotin (h2 _ hu)
      · intro u hu
        simp only [List.map_append, List.map_cons, List.map_nil,
          List.mem_append, List.mem_singleton] at hu
        rcases hu with hu | hu
        · exact List.mem_append_left _ (h2 u hu)
        · subst hu
          simp
      · intro it hit
        simp only [List.mem_append, List.mem_singleton] at hit
        rcases hit with hit | hit
        · exact h3 it hit
        · subst hit
          exact ⟨hcc.2, hcc.1.1⟩
    · simp only [insertHits] at ih
      rw [if_neg hc]
      exact ih s h1 h2 h3

theorem doSearch_inv (env : FetchEnv) (s : Session) (call : SearchCall)
    (lang rm ep : String)
    (h1 : (s.news_items.map NewsItem.url).Nodup)
    (h2 : ∀ u ∈ s.news_items.map NewsItem.url, u ∈ s.seen_urls)
    (h3 : ∀ it ∈ s.news_items, it.title ≠ "" ∧ it.url ≠ "") :
    (((doSearch env s call lang rm ep).1.news_items.map NewsItem.url).Nodup) ∧
    (∀ u ∈ (doSearch env s call lang rm ep).1.news_items.map NewsItem.url,
      u ∈ (doSearch env s call lang rm ep).1.seen_urls) ∧
    (∀ it ∈ (doSearch env s call lang rm ep).1.news_items,
      it.title ≠ "" ∧ it.url ≠ "") := by
  simp only [doSearch]
  rcases henv : env.search s.calls call with e | hits
  · exact ⟨h1, h2, h3⟩
  · exact insertHits_inv lang hits { s with calls := s.calls + 1 } h1 h2 h3

theorem runQueryList_inv (env : FetchEnv) (bound : Nat) (region lang : String)
    (maxr : Int) :
    ∀ (kws : List String) (s : Session),
    (s.news_items.map NewsItem.url).Nodup →
    (∀ u ∈ s.news_items.map NewsItem.url, u ∈ s.seen_urls) →
    (∀ it ∈ s.news_items, it.title ≠ "" ∧ it.url ≠ "") →
    (((runQueryList env bound region lang maxr kws s).news_items.map
        NewsItem.url).Nodup) ∧
    (∀ u ∈ (runQueryList env bound region lang maxr kws s).news_items.map
        NewsItem.url,
      u ∈ (runQueryList env bound region lang maxr kws s).seen_urls) ∧
    (∀ it ∈ (runQueryList env bound region lang maxr kws s).news_items,
      it.title ≠ "" ∧ it.url ≠ "") := by
  intro kws
  induction kws with
  | nil => intro s h1 h2 h3; exact ⟨h1, h2, h3⟩
  | cons kw rest ih =>
    intro s h1 h2 h3
    simp only [runQueryList]
    split
    · exact ⟨h1, h2, h3⟩
    · obtain ⟨g1, g2, g3⟩ := doSearch_inv env s ⟨kw, region, maxr⟩ lang
        (rateMsgKw kw) (errPreKw kw) h1 h2 h3
      exact ih _ g1 g2 g3

theorem runFallbackList_inv (env : FetchEnv) (bound : Nat)
    (sufficient maxr : Int) :
    ∀ (qs : List String) (s : Session),
    (s.news_items.map NewsItem.url).Nodup →
    (∀ u ∈ s.news_items.map NewsItem.url, u ∈ s.seen_urls) →
    (∀ it ∈ s.news_items, it.title ≠ "" ∧ it.url ≠ "") →
    (((runFallbackList env bound sufficient maxr qs s).news_items.map
        NewsItem.url).Nodup) ∧
    (∀ u ∈ (runFallbackList env bound sufficient maxr qs s).news_items.map
        NewsItem.url,
      u ∈ (runFallbackList env bound sufficient maxr qs s).seen_urls) ∧
    (∀ it ∈ (runFallbackList env bound sufficient maxr qs s).news_items,
      it.title ≠ "" ∧ it.url ≠ "") := by
  intro qs
  induction qs with
  | nil => intro s h1 h2 h3; exact ⟨h1, h2, h3⟩
  | cons q rest ih =>
    intro s h1 h2 h3
    simp only [runFallbackList]
    split
    · exact ⟨h1, h2, h3⟩
    · obtain ⟨g1, g2, g3⟩ := doSearch_inv env s ⟨q, "jp-ja", maxr⟩ "ja"
        (rateMsgFb q) (errPreFb q) h1 h2 h3
      split
      · exact ⟨g1, g2, g3⟩
      · exact ih _ g1 g2 g3

theorem runJapPhase_inv (env : FetchEnv) (cfg : NewsSearchConfig)
    (query : String) (symbol_clean japName : Option String) (effMax : Int)
    (s : Session)
    (h1 : (s.news_items.map NewsItem.url).Nodup)
    (h2 : ∀ u ∈ s.news_items.map NewsItem.url, u ∈ s.seen_urls)
    (h3 : ∀ it ∈ s.news_items, it.title ≠ "" ∧ it.url ≠ "") :
    (((runJapPhase env cfg query symbol_clean japName effMax s).news_items.map
        NewsItem.url).Nodup) ∧
    (∀ u ∈ (runJapPhase env cfg query symbol_clean japName effMax
        s).news_items.map NewsItem.url,
      u ∈ (runJapPhase env cfg query symbol_clean japName effMax s).seen_urls) ∧
    (∀ it ∈ (runJapPhase env cfg query symbol_clean japName effMax
        s).news_items, it.title ≠ "" ∧ it.url ≠ "") := by
  simp only [runJapPhase]
  obtain ⟨g1, g2, g3⟩ := runQueryList_inv env _ _ _ _
    (buildJapKeywords cfg query symbol_clean japName) s h1 h2 h3
  split
  · exact ⟨g1, g2, g3⟩
  · split
    · exact runFallbackList_inv env _ _ _ _ _ g1 g2 g3
    · exact ⟨g1, g2, g3⟩

theorem runRound_inv (env : FetchEnv) (cfg : NewsSearchConfig) (query : String)
    (symbol_clean japName : Option String) (isJap : Bool) (effMax : Int)
    (s : Session)
    (h1 : (s.news_items.map NewsItem.url).Nodup)
    (h2 : ∀ u ∈ s.news_items.map NewsItem.url, u ∈ s.seen_urls)
    (h3 : ∀ it ∈ s.news_items, it.title ≠ "" ∧ it.url ≠ "") :
    (((runRound env cfg query symbol_clean japName isJap effMax s).news_items.map
        NewsItem.url).Nodup) ∧
    (∀ u ∈ (runRound env cfg query symbol_clean japName isJap effMax
        s).news_items.map NewsItem.url,
      u ∈ (runRound env cfg query symbol_clean japName isJap effMax s).seen_urls) ∧
    (∀ it ∈ (runRound env cfg query symbol_clean japName isJap effMax
        s).news_items, it.title ≠ "" ∧ it.url ≠ "") := by
  simp only [runRound]
  split
  · obtain ⟨g1, g2, g3⟩ := runJapPhase_inv env cfg query symbol_clean japName
      effMax s h1 h2 h3
    split
    · exact runQueryList_inv env _ _ _ _ _ _ g1 g2 g3
    · exact ⟨g1, g2, g3⟩
  · split
    · exact runQueryList_inv env _ _ _ _ _ _ h1 h2 h3
    · exact ⟨h1, h2, h3⟩

theorem runRetries_inv (env : FetchEnv) (cfg : NewsSearchConfig) (query : String)
    (symbol_clean japName : Option String) (isJap : Bool) (effMax : Int) :
    ∀ (n : Nat) (s : Session),
    (s.news_items.map NewsItem.url).Nodup →
    (∀ u ∈ s.news_items.map NewsItem.url, u ∈ s.seen_urls) →
    (∀ it ∈ s.news_items, it.title ≠ "" ∧ it.url ≠ "") →
    (((runRetries env cfg query symbol_clean japName isJap effMax n
        s).news_items.map NewsItem.url).Nodup) ∧
    (∀ it ∈ (runRetries env cfg query symbol_clean japName isJap effMax n
        s).news_items, it.title ≠ "" ∧ it.url ≠ "") := by
  intro n
  induction n with
  | zero => intro s h1 h2 h3; exact ⟨h1, h3⟩
  | succ n ih =>
    intro s h1 h2 h3
    obtain ⟨g1, g2, g3⟩ := runRound_inv env cfg query symbol_clean japName
      isJap effMax s h1 h2 h3
    simp only [runRetries]
    split
    · exact ⟨g1, g3⟩
    · exact ih _ g1 g2 g3

theorem orderedInsertB_perm (le : α → α → Bool) (a : α) :
    ∀ l : List α, (orderedInsertB le a l).Perm (a :: l) := by
  intro l
  induction l with
  | nil => exact List.Perm.refl _
  | cons b t ih =>
    simp only [orderedInsertB]
    split
    · exact List.Perm.refl _
    · exact (ih.cons b).trans (List.Perm.swap a b t)

theorem insertionSortB_perm (le : α → α → Bool) :
    ∀ l : List α, (insertionSortB le l).Perm l := by
  intro l
  induction l with
  | nil => exact List.Perm.refl _
  | cons a t ih =>
    simp only [insertionSortB]
    exact (orderedInsertB_perm le a _).trans (ih.cons a)

theorem enrichItem_url (env : FetchEnv) (it : NewsItem) :
    (enrichItem env it).url = it.url := by
  simp only [enrichItem]
  repeat' split
  all_goals rfl

theorem enrichItem_title (env : FetchEnv) (it : NewsItem) :
    (enrichItem env it).title = it.title := by
  simp only [enrichItem]
  repeat' split
  all_goals rfl

theorem fetch_news_items_ok (env : FetchEnv) (cfg : NewsSearchConfig)
    (now : Int) (query : String) (symbol : Option String) (mr : Int) :
    ((fetch_news env cfg now query symbol mr).map NewsItem.url).Nodup ∧
    (∀ it ∈ fetch_news env cfg now query symbol mr,
      it.title ≠ "" ∧ it.url ≠ "") := by
  unfold fetch_news
  split
  · simp
  · simp only [fetch_news_core]
    obtain ⟨n1, n3⟩ := runRetries_inv env cfg query _ _ _ _
      cfg.search.max_retries ⟨[], [], [], 0⟩ (by simp) (by simp) (by simp)
    -- recency filter
    have s1 : ∀ (l : List NewsItem),
        (l.map NewsItem.url).Nodup → (∀ it ∈ l, it.title ≠ "" ∧ it.url ≠ "") →
        ((filter_recent_news now cfg.filtering.date_threshold_days l).map
          NewsItem.url).Nodup ∧
        (∀ it ∈ filter_recent_news now cfg.filtering.date_threshold_days l,
          it.title ≠ "" ∧ it.url ≠ "") := by
      intro l hl hm
      refine ⟨List.Nodup.sublist (List.Sublist.map _ (List.filter_sublist l)) hl,
        fun it hit => hm it (List.mem_of_mem_filter hit)⟩
    have s2 : ∀ (p : NewsItem → Bool) (l : List NewsItem),
        (l.map NewsItem.url).Nodup → (∀ it ∈ l, it.title ≠ "" ∧ it.url ≠ "") →
        ((l.filter p).map NewsItem.url).Nodup ∧
        (∀ it ∈ l.filter p, it.title ≠ "" ∧ it.url ≠ "") := by
      intro p l hl hm
      exact ⟨List.Nodup.sublist (List.Sublist.map _ (List.filter_sublist l)) hl,
        fun it hit => hm it (List.mem_of_mem_filter hit)⟩
    have s3 : ∀ (le : NewsItem → NewsItem → Bool) (l : List NewsItem),
        (l.map NewsItem.url).Nodup → (∀ it ∈ l, it.title ≠ "" ∧ it.url ≠ "") →
        ((insertionSortB le l).map NewsItem.url).Nodup ∧
        (∀ it ∈ insertionSortB le l, it.title ≠ "" ∧ it.url ≠ "") := by
      intro le l hl hm
      have hp := insertionSortB_perm le l
      exact ⟨((hp.map NewsItem.url).nodup_iff).mpr hl,
        fun it hit => hm it (hp.mem_iff.mp hit)⟩
    have s5 : ∀ (n : Int) (l : List NewsItem),
        (l.map NewsItem.url).Nodup → (∀ it ∈ l, it.title ≠ "" ∧ it.url ≠ "") →
        ((pySliceTo n l).map NewsItem.url).Nodup ∧
        (∀ it ∈ pySliceTo n l, it.title ≠ "" ∧ it.url ≠ "") := by
      intro n l hl hm
      have hsub : (pySliceTo n l).Sublist l := by
        unfold pySliceTo
        split <;> exact List.take_sublist _ _
      exact ⟨List.Nodup.sublist (List.Sublist.map _ hsub) hl,
        fun it hit => hm it (hsub.mem hit)⟩
    have s6 : ∀ (l : List NewsItem),
        (l.map NewsItem.url).Nodup → (∀ it ∈ l, it.title ≠ "" ∧ it.url ≠ "") →
        ((l.map (enrichItem env)).map NewsItem.url).Nodup ∧
        (∀ it ∈ l.map (enrichItem env), it.title ≠ "" ∧ it.url ≠ "") := by
      intro l hl hm
      constructor
      · rw [List.map_map]
        have : l.map (NewsItem.url ∘ enrichItem env) = l.map NewsItem.url :=
          List.map_congr_left (fun a _ => enrichItem_url env a)
        rw [this]
        exact hl
      · intro it hit
        obtain ⟨a, ha, rfl⟩ := List.mem_map.mp hit
        obtain ⟨t1, t2⟩ := hm a ha
        rw [enrichItem_title, enrichItem_url]
        exact ⟨t1, t2⟩
    obtain ⟨a1, a2⟩ := s1 _ n1 n3
    obtain ⟨b1, b2⟩ := s2 _ _ a1 a2
    obtain ⟨c1, c2⟩ := s3 _ _ b1 b2
    obtain ⟨d1, d2⟩ := s2 _ _ c1 c2
    obtain ⟨e1, e2⟩ := s5 _ _ d1 d2
    obtain ⟨f1, f2⟩ := s6 _ e1 e2
    exact ⟨f1, f2⟩

/-- Claim C6: within one `fetch_news` call the URL is a unique key — a hit
whose URL is already in the session's seen set is never appended (second
insertion with a seen URL is a session no-op), and the returned list's URLs
are pairwise distinct. -/
theorem claim_C6 (env : FetchEnv) (cfg : NewsSearchConfig) (now : Int)
    (query : String) (symbol : Option String) (mr : Int) :
    List.Pairwise (· ≠ ·)
      ((fetch_news env cfg now query symbol mr).map NewsItem.url) ∧
    (∀ (h : RawHit) (lang : String) (s : Session),
      h.url ∈ s.seen_urls → insertHits [h] lang s = s) := by
  refine ⟨(fetch_news_items_ok env cfg now query symbol mr).1, ?_⟩
  intro h lang s hmem
  simp only [insertHits, List.foldl_cons, List.foldl_nil]
  rw [if_neg]
  intro hc
  simp only [Bool.and_eq_true, Bool.not_eq_true'] at hc
  rw [show s.seen_urls.contains h.url = s.seen_urls.elem h.url from rfl,
    List.elem_iff.mpr hmem] at hc
  exact Bool.noConfusion hc.1.2

/-- Claim C6, witness: a concrete run with duplicate-URL hits plus a
concrete seen-URL no-op insertion. -/
theorem claim_C6_witness :
    List.Pairwise (· ≠ ·)
      ((fetch_news teslaFetchEnv smallCfg 1716000000 "tesla" none 15).map
        NewsItem.url) ∧
    insertHits [teslaHit] "en"
        { news_items := [], seen_urls := ["http://news/tesla-1"], errors := [],
          calls := 3 } =
      { news_items := [], seen_urls := ["http://news/tesla-1"], errors := [],
        calls := 3 } :=
  ⟨(claim_C6 teslaFetchEnv smallCfg 1716000000 "tesla" none 15).1,
    (claim_C6 teslaFetchEnv smallCfg 1716000000 "tesla" none 15).2 teslaHit "en"
      _ (by simp [teslaHit])⟩

/-- Claim C10: a search hit with a missing/empty title or URL is never
inserted, so every item `fetch_news` returns has a non-empty title and a
non-empty URL. -/
theorem claim_C10 (env : FetchEnv) (cfg : NewsSearchConfig) (now : Int)
    (query : String) (symbol : Option String) (mr : Int) (it : NewsItem)
    (hit : it ∈ fetch_news env cfg now query symbol mr) :
    it.title ≠ "" ∧ it.url ≠ "" :=
  (fetch_news_items_ok env cfg now query symbol mr).2 it hit

/-- Claim C10, witness: the concrete run returns `teslaResultItem`, whose
title and URL are non-empty. -/
theorem claim_C10_witness :
    teslaResultItem ∈ fetch_news teslaFetchEnv smallCfg 1716000000 "tesla"
      none 15 ∧
    teslaResultItem.title ≠ "" ∧ teslaResultItem.url ≠ "" :=
  ⟨by decide,
    claim_C10 teslaFetchEnv smallCfg 1716000000 "tesla" none 15 teslaResultItem
      (by decide)⟩

/-! ## Claim C9 -/

theorem pySliceTo_length_le (n : Int) (l : List α) (hn : 0 ≤ n) :
    ((pySliceTo n l).length : Int) ≤ n := by
  unfold pySliceTo
  split
  · omega
  · simp only [List.length_take]
    have := Int.toNat_of_nonneg hn
    omega

/-- Claim C9: in `fetch_news` the passed value 15 is a sentinel meaning
"unspecified" — a caller passing exactly 15 gets the configured
`search.max_results` instead, while any other passed value is used
unchanged as the truncation limit (and, when non-negative, bounds the
result length). -/
theorem claim_C9 (env : FetchEnv) (cfg : NewsSearchConfig) (now : Int)
    (query : String) (symbol : Option String) :
    fetch_news env cfg now query symbol 15 =
      fetch_news env cfg now query symbol cfg.search.max_results ∧
    (∀ mr : Int, mr ≠ 15 →
      fetch_news env cfg now query symbol mr =
        (if query = "" then []
         else fetch_news_core env cfg now query symbol mr)) ∧
    (∀ mr : Int, mr ≠ 15 → 0 ≤ mr →
      ((fetch_news env cfg now query symbol mr).length : Int) ≤ mr) := by
  refine ⟨?_, ?_, ?_⟩
  · simp only [fetch_news]
    have h1 : (if (15:Int) ≠ 15 then (15:Int) else cfg.search.max_results) =
        cfg.search.max_results := by norm_num
    have h2 : (if cfg.search.max_results ≠ 15 then cfg.search.max_results
        else cfg.search.max_results) = cfg.search.max_results := by
      split <;> rfl
    rw [h1, h2]
  · intro mr hmr
    simp only [fetch_news, ne_eq, hmr, not_false_eq_true, if_true]
  · intro mr hmr hnn
    simp only [fetch_news, ne_eq, hmr, not_false_eq_true, if_true]
    split
    · simpa using hnn
    · simp only [fetch_news_core, List.length_map]
      exact pySliceTo_length_le mr _ hnn

/-- Claim C9, witness: a caller passing 20 gets exactly the core run with
truncation limit 20, and at most 20 items. -/
theorem claim_C9_witness :
    fetch_news teslaFetchEnv smallCfg 1716000000 "tesla" none 20 =
      (if ("tesla" : String) = "" then []
       else fetch_news_core teslaFetchEnv smallCfg 1716000000 "tesla" none 20) ∧
    ((fetch_news teslaFetchEnv smallCfg 1716000000 "tesla" none 20).length :
      Int) ≤ 20 :=
  ⟨(claim_C9 teslaFetchEnv smallCfg 1716000000 "tesla" none).2.1 20
      (by norm_num),
    (claim_C9 teslaFetchEnv smallCfg 1716000000 "tesla" none).2.2 20
      (by norm_num) (by norm_num)⟩

/-! ## Date-parsing lemmas (claim C8) -/

theorem takeWhile_all_append (p : α → Bool) (l₂ : List α)
    (h2 : ∀ y ∈ l₂.head?, p y = false) :
    ∀ l₁, (∀ x ∈ l₁, p x = true) →
      ((l₁ ++ l₂).takeWhile p = l₁ ∧ (l₁ ++ l₂).dropWhile p = l₂) := by
  intro l₁
  induction l₁ with
  | nil =>
    intro _
    cases l₂ with
    | nil => simp
    | cons y t =>
      have := h2 y (by simp)
      simp [List.takeWhile, List.dropWhile, this]
  | cons x t ih =>
    intro h1
    have hx := h1 x (by simp)
    have ⟨ih1, ih2⟩ := ih (fun a ha => h1 a (by simp [ha]))
    simp [List.takeWhile, List.dropWhile, hx, ih1, ih2]

theorem pyCharLower_digit (c : Char) (h : isDigitC c = true) :
    pyCharLower c = c := by
  unfold pyCharLower
  rw [if_neg]
  simp only [isDigitC, Bool.and_eq_true, decide_eq_true_eq] at h
  simp only [Bool.and_eq_true, decide_eq_true_eq, not_and]
  omega

theorem isDigitC_not_space (c : Char) (h : isDigitC c = true) :
    pyIsSpace c = false := by
  simp only [isDigitC, Bool.and_eq_true, decide_eq_true_eq] at h
  simp only [pyIsSpace, Bool.or_eq_false_iff, beq_eq_false_iff_ne, ne_eq]
  omega

theorem head_digit_or (ds lit : List Char) (hds : ∀ x ∈ ds, isDigitC x = true)
    (h0 : Char) (hh : (ds ++ lit).head? = some h0) :
    isDigitC h0 = true ∨ lit.head? = some h0 := by
  cases ds with
  | nil => right; simpa using hh
  | cons a t =>
    left
    simp only [List.cons_append, List.head?_cons, Option.some_inj] at hh
    subst hh
    exact hds a (by simp)

theorem isDigitC_of_isD (c lo hi : Char) (hlo : 48 ≤ lo.toNat)
    (hhi : hi.toNat ≤ 57) (h : isD c lo hi = true) : isDigitC c = true := by
  simp only [isD, Bool.and_eq_true, decide_eq_true_eq] at h
  simp only [isDigitC, Bool.and_eq_true, decide_eq_true_eq]
  omega

theorem pTokY_shape (cs : List Char) :
    ∀ p ∈ pTokY cs, ∃ a b c d, cs = a :: b :: c :: d :: p.2 ∧
      isDigitC a = true ∧ isDigitC b = true ∧ isDigitC c = true ∧
      isDigitC d = true := by
  intro p hp
  unfold pTokY at hp
  split at hp
  · rename_i a b c d r
    split at hp
    · rename_i hd
      simp only [List.mem_singleton] at hp
      subst hp
      simp only [Bool.and_eq_true] at hd
      exact ⟨a, b, c, d, rfl, hd.1.1.1, hd.1.1.2, hd.1.2, hd.2⟩
    · simp at hp
  · simp at hp

theorem pTokDay_shape (cs : List Char) :
    ∀ p ∈ pTokDay cs,
      (∃ a, cs = a :: p.2 ∧ isDigitC a = true) ∨
      (∃ a b, cs = a :: b :: p.2 ∧ isDigitC a = true ∧ isDigitC b = true) := by
  intro p hp
  unfold pTokDay at hp
  simp only [List.mem_append] at hp
  rcases hp with ((hp | hp) | hp) | hp
  · split at hp
    · rename_i a b r
      split at hp
      · rename_i hd
        simp only [List.mem_singleton] at hp
        subst hp
        simp only [Bool.and_eq_true] at hd
        refine Or.inr ⟨a, b, rfl, ?_, isDigitC_of_isD b '0' '1' (by decide) (by decide) hd.2⟩
        have := eq_of_beq hd.1
        subst this
        decide
      · simp at hp
    · simp at hp
  · split at hp
    · rename_i a b r
      split at hp
      · rename_i hd
        simp only [List.mem_singleton] at hp
        subst hp
        simp only [Bool.and_eq_true] at hd
        exact Or.inr ⟨a, b, rfl,
          isDigitC_of_isD a '1' '2' (by decide) (by decide) hd.1, hd.2⟩
      · simp at hp
    · simp at hp
  · split at hp
    · rename_i a b r
      split at hp
      · rename_i hd
        simp only [List.mem_singleton] at hp
        subst hp
        simp only [Bool.and_eq_true] at hd
        refine Or.inr ⟨a, b, rfl, ?_, isDigitC_of_isD b '1' '9' (by decide) (by decide) hd.2⟩
        have := eq_of_beq hd.1
        subst this
        decide
      · simp at hp
    · simp at hp
  · split at hp
    · rename_i a r
      split at hp
      · rename_i hd
        simp only [List.mem_singleton] at hp
        subst hp
        exact Or.inl ⟨a, rfl, isDigitC_of_isD a '1' '9' (by decide) (by decide) hd⟩
      · simp at hp
    · simp at hp

theorem runTok_lit_nil (c : Char) (f : TimeFields) (cs : List Char)
    (h : ∀ h0 ∈ cs.head?, (pyCharLower h0).toNat ≠ (pyCharLower c).toNat) :
    runTok (.lit c) f cs = [] := by
  cases cs with
  | nil => rfl
  | cons a r =>
    simp only [runTok]
    rw [if_neg]
    have := h a (by simp)
    simpa using this

theorem runTok_ws_nil (f : TimeFields) (cs : List Char)
    (h : ∀ h0 ∈ cs.head?, pyIsSpace h0 = false) :
    runTok .ws f cs = [] := by
  cases cs with
  | nil => rfl
  | cons a r =>
    have := h a (by simp)
    simp only [runTok, List.takeWhile]
    rw [this]
    simp

/-- Consuming a digit prefix from a digit block leaves a digit block: if
`ds ++ lit = pre ++ r` with `ds`, `pre` all digits and `lit` starting with a
non-digit, then `r = ds' ++ lit` for a digit list `ds'`. -/
theorem split_digits (lit : List Char) (t0 : Char) (tr : List Char)
    (hlit : lit = t0 :: tr) (ht0 : isDigitC t0 = false) :
    ∀ (pre ds r : List Char), (∀ x ∈ ds, isDigitC x = true) →
      (∀ x ∈ pre, isDigitC x = true) → ds ++ lit = pre ++ r →
      ∃ ds', r = ds' ++ lit ∧ (∀ x ∈ ds', isDigitC x = true) := by
  intro pre
  induction pre with
  | nil =>
    intro ds r hds _ heq
    exact ⟨ds, by simpa using heq.symm, hds⟩
  | cons p pre' ih =>
    intro ds r hds hpre heq
    cases ds with
    | nil =>
      simp only [List.nil_append, hlit, List.cons_append, List.cons.injEq] at heq
      exfalso
      have hp := hpre p (by simp)
      rw [← heq.1] at hp
      rw [hp] at ht0
      exact Bool.noConfusion ht0
    | cons d ds'' =>
      simp only [List.cons_append, List.cons.injEq] at heq
      exact ih ds'' r (fun x hx => hds x (by simp [hx]))
        (fun x hx => hpre x (by simp [hx])) heq.2

theorem digit_lower_ne (c2 : Char)
    (hlt : (pyCharLower c2).toNat < 48 ∨ 57 < (pyCharLower c2).toNat)
    (d : Char) (hd : isDigitC d = true) :
    (pyCharLower d).toNat ≠ (pyCharLower c2).toNat := by
  rw [pyCharLower_digit d hd]
  simp only [isDigitC, Bool.and_eq_true, decide_eq_true_eq] at hd
  omega

theorem runFormat_Y_lit_dead (c2 : Char) (rest : List FTok) (lit : List Char)
    (t0 : Char) (tr : List Char) (hlit : lit = t0 :: tr)
    (ht0d : isDigitC t0 = false)
    (hlt : (pyCharLower c2).toNat < 48 ∨ 57 < (pyCharLower c2).toNat)
    (ht0c : (pyCharLower t0).toNat ≠ (pyCharLower c2).toNat)
    (ds : List Char) (hds : ∀ x ∈ ds, isDigitC x = true) :
    runFormat (.Y :: .lit c2 :: rest) {} (ds ++ lit) = [] := by
  simp only [runFormat]
  apply List.flatMap_eq_nil_iff.mpr
  intro p hp
  simp only [runTok, List.mem_map] at hp
  obtain ⟨⟨v, r⟩, hvr, rfl⟩ := hp
  obtain ⟨a, b, c, d, hcs, ha, hb, hc, hd⟩ := pTokY_shape _ _ hvr
  obtain ⟨ds', hr, hds'⟩ := split_digits lit t0 tr hlit ht0d [a, b, c, d] ds r
    hds (by
      intro x hx
      simp only [List.mem_cons, List.not_mem_nil, or_false] at hx
      rcases hx with rfl | rfl | rfl | rfl <;> assumption) hcs
  subst hr
  simp only [runFormat]
  apply List.flatMap_eq_nil_iff.mpr
  intro q hq
  rw [runTok_lit_nil c2 _ _ ?_] at hq
  · simp at hq
  · intro h0 hh0
    rcases head_digit_or ds' lit hds' h0 hh0 with hdig | hht
    · exact digit_lower_ne c2 hlt h0 hdig
    · rw [hlit] at hht
      simp only [List.head?_cons, Option.some_inj] at hht
      subst hht
      exact ht0c

theorem runFormat_day_ws_dead (rest : List FTok) (lit : List Char)
    (t0 : Char) (tr : List Char) (hlit : lit = t0 :: tr)
    (ht0d : isDigitC t0 = false) (ht0s : pyIsSpace t0 = false)
    (ds : List Char) (hds : ∀ x ∈ ds, isDigitC x = true) :
    runFormat (.day :: .ws :: rest) {} (ds ++ lit) = [] := by
  simp only [runFormat]
  apply List.flatMap_eq_nil_iff.mpr
  intro p hp
  simp only [runTok, List.mem_map] at hp
  obtain ⟨⟨v, r⟩, hvr, rfl⟩ := hp
  have hsplit : ∃ ds', r = ds' ++ lit ∧ (∀ x ∈ ds', isDigitC x = true) := by
    rcases pTokDay_shape _ _ hvr with ⟨a, hcs, ha⟩ | ⟨a, b, hcs, ha, hb⟩
    · exact split_digits lit t0 tr hlit ht0d [a] ds r hds
        (by
          intro x hx
          simp only [List.mem_cons, List.not_mem_nil, or_false] at hx
          rcases hx with rfl
          assumption) hcs
    · exact split_digits lit t0 tr hlit ht0d [a, b] ds r hds
        (by
          intro x hx
          simp only [List.mem_cons, List.not_mem_nil, or_false] at hx
          rcases hx with rfl | rfl <;> assumption) hcs
  obtain ⟨ds', hr, hds'⟩ := hsplit
  subst hr
  simp only [runFormat]
  apply List.flatMap_eq_nil_iff.mpr
  intro q hq
  rw [runTok_ws_nil _ _ ?_] at hq
  · simp at hq
  · intro h0 hh0
    rcases head_digit_or ds' lit hds' h0 hh0 with hdig | hht
    · exact isDigitC_not_space h0 hdig
    · rw [hlit] at hht
      simp only [List.head?_cons, Option.some_inj] at hht
      subst hht
      exact ht0s

theorem strptimeWith_dead (toks : List FTok) (s : String)
    (h : runFormat toks {} s.toList = []) : strptimeWith toks s = none := by
  simp only [strptimeWith]
  rw [h]
  rfl

theorem tryFormats_none : ∀ (fmts : List (List FTok)) (s : String),
    (∀ t ∈ fmts, strptimeWith t s = none) → tryFormats fmts s = none := by
  intro fmts
  induction fmts with
  | nil => intro s _; rfl
  | cons t rest ih =>
    intro s h
    simp only [tryFormats]
    rw [h t (by simp)]
    exact ih s (fun t' ht' => h t' (by simp [ht']))

theorem searchNumGo_skip (lit : List Char) :
    ∀ (l m : List Char), searchNumGo lit (l ++ m) l.length = searchNumGo lit m 0 := by
  intro l
  induction l with
  | nil => intro m; rfl
  | cons x t ih => intro m; exact ih m

theorem isPrefixOf_self (l : List Char) : l.isPrefixOf l = true := by
  induction l with
  | nil => rfl
  | cons a t ih => simp [List.isPrefixOf, ih]

theorem searchNumBefore_hit (ds : List Char) (c : Char) (rest : List Char)
    (hcons : ds = c :: rest) (hds : ∀ x ∈ ds, isDigitC x = true)
    (lit : List Char)
    (hlh : ∀ y ∈ lit.head?, isDigitC y = false ∧ pyIsSpace y = false) :
    searchNumBefore (ds ++ lit) lit = some (digitsToNat ds) := by
  subst hcons
  simp only [searchNumBefore, List.cons_append, searchNumGo]
  rw [if_pos (hds c (by simp))]
  simp only [List.append_eq]
  obtain ⟨htw, hdw⟩ := takeWhile_all_append isDigitC lit
    (fun y hy => (hlh y hy).1) (c :: rest) hds
  simp only [List.cons_append] at htw hdw
  rw [htw, hdw]
  have hdw2 : lit.dropWhile pyIsSpace = lit := by
    cases lit with
    | nil => rfl
    | cons y t =>
      have := (hlh y (by simp)).2
      simp [List.dropWhile, this]
  rw [hdw2, isPrefixOf_self]
  simp

theorem searchNumBefore_miss (target : List Char) :
    ∀ (ds lit : List Char), (∀ x ∈ ds, isDigitC x = true) →
    (∀ y ∈ lit.head?, isDigitC y = false ∧ pyIsSpace y = false) →
    target.isPrefixOf lit = false →
    searchNumGo target lit 0 = none →
    searchNumBefore (ds ++ lit) target = none := by
  intro ds lit hds hlh hpref hlitnone
  cases ds with
  | nil => simpa [searchNumBefore] using hlitnone
  | cons c rest =>
    simp only [searchNumBefore, List.cons_append, searchNumGo]
    rw [if_pos (hds c (by simp))]
    simp only [List.append_eq]
    obtain ⟨htw, hdw⟩ := takeWhile_all_append isDigitC lit
      (fun y hy => (hlh y hy).1) (c :: rest) hds
    simp only [List.cons_append] at htw hdw
    rw [htw, hdw]
    have hdw2 : lit.dropWhile pyIsSpace = lit := by
      cases lit with
      | nil => rfl
      | cons y t =>
        have := (hlh y (by simp)).2
        simp [List.dropWhile, this]
    rw [hdw2, hpref]
    simp only [List.length_cons, Nat.add_sub_cancel]
    have : rest ++ lit = rest ++ lit := rfl
    have hskip := searchNumGo_skip target rest lit
    simpa [searchNumBefore, hskip] using hlitnone

theorem string_append_ne_empty (s : String) (t : String) (ht : t.data ≠ []) :
    s ++ t ≠ "" := by
  intro h
  have := congrArg String.data h
  rw [show (s ++ t).data = s.data ++ t.data from rfl] at this
  simp only [show ("" : String).data = [] from rfl, List.append_eq_nil] at this
  exact ht this.2

theorem pyLower_digits_tail (s : String) (tail : List Char)
    (hds : ∀ x ∈ s.toList, isDigitC x = true)
    (htail : tail.map pyCharLower = tail) :
    (pyLower (s ++ String.mk tail)).toList = s.toList ++ tail := by
  show ((s ++ String.mk tail).toList.map pyCharLower) = s.toList ++ tail
  rw [show (s ++ String.mk tail).toList = s.toList ++ tail from rfl,
    List.map_append, htail]
  congr 1
  rw [List.map_congr_left (fun a ha => pyCharLower_digit a (hds a ha))]
  exact List.map_id _

theorem parse_relative_hours (now : Int) (s : String) (hne : s ≠ "")
    (hds : s.toList.all isDigitC = true) :
    parse_news_date now (some (s ++ "時間前")) =
      some { sec := now - 3600 * (digitsToNat s.toList : Int), aware := true } := by
  have hds' : ∀ x ∈ s.toList, isDigitC x = true := by
    intro x hx
    exact List.all_eq_true.mp hds x hx
  obtain ⟨c, rest, hcons⟩ : ∃ c rest, s.toList = c :: rest := by
    cases hsl : s.toList with
    | nil =>
      exfalso
      apply hne
      cases s with
      | mk d =>
        simp only [String.toList] at hsl
        simp [hsl]
    | cons c rest => exact ⟨c, rest, rfl⟩
  have htl : (s ++ "時間前").toList = s.toList ++ ['時', '間', '前'] := rfl
  have hdead : tryFormats newsDateFormats (s ++ "時間前") = none := by
    apply tryFormats_none
    intro t ht
    apply strptimeWith_dead
    rw [show (s ++ "時間前").toList = s.toList ++ ['時', '間', '前'] from rfl]
    simp only [newsDateFormats, List.mem_cons, List.not_mem_nil, or_false] at ht
    rcases ht with rfl | rfl | rfl | rfl | rfl | rfl | rfl
    · exact runFormat_Y_lit_dead '-' _ _ '時' _ rfl (by decide)
        (Or.inl (by decide)) (by decide) _ hds'
    · exact runFormat_Y_lit_dead '-' _ _ '時' _ rfl (by decide)
        (Or.inl (by decide)) (by decide) _ hds'
    · exact runFormat_Y_lit_dead '-' _ _ '時' _ rfl (by decide)
        (Or.inl (by decide)) (by decide) _ hds'
    · exact runFormat_Y_lit_dead '-' _ _ '時' _ rfl (by decide)
        (Or.inl (by decide)) (by decide) _ hds'
    · exact runFormat_day_ws_dead _ _ '時' _ rfl (by decide) (by decide) _ hds'
    · exact runFormat_day_ws_dead _ _ '時' _ rfl (by decide) (by decide) _ hds'
    · exact runFormat_Y_lit_dead '年' _ _ '時' _ rfl (by decide)
        (Or.inr (by decide)) (by decide) _ hds'
  have hlow : (pyLower (s ++ "時間前")).toList = s.toList ++ ['時', '間', '前'] :=
    pyLower_digits_tail s ['時', '間', '前'] hds' (by decide)
  have hhit : searchNumBefore ((pyLower (s ++ "時間前")).toList) ['時', '間', '前'] =
      some (digitsToNat s.toList) := by
    rw [hlow]
    exact searchNumBefore_hit s.toList c rest hcons hds' _ (by decide)
  simp only [parse_news_date]
  rw [if_neg (string_append_ne_empty s "時間前" (by decide))]
  rw [hdead, hhit]

theorem parse_relative_days (now : Int) (s : String) (hne : s ≠ "")
    (hds : s.toList.all isDigitC = true) :
    parse_news_date now (some (s ++ "日前")) =
      some { sec := now - 86400 * (digitsToNat s.toList : Int), aware := true } := by
  have hds' : ∀ x ∈ s.toList, isDigitC x = true := by
    intro x hx
    exact List.all_eq_true.mp hds x hx
  obtain ⟨c, rest, hcons⟩ : ∃ c rest, s.toList = c :: rest := by
    cases hsl : s.toList with
    | nil =>
      exfalso
      apply hne
      cases s with
      | mk d =>
        simp only [String.toList] at hsl
        simp [hsl]
    | cons c rest => exact ⟨c, rest, rfl⟩
  have hdead : tryFormats newsDateFormats (s ++ "日前") = none := by
    apply tryFormats_none
    intro t ht
    apply strptimeWith_dead
    rw [show (s ++ "日前").toList = s.toList ++ ['日', '前'] from rfl]
    simp only [newsDateFormats, List.mem_cons, List.not_mem_nil, or_false] at ht
    rcases ht with rfl | rfl | rfl | rfl | rfl | rfl | rfl
    · exact runFormat_Y_lit_dead '-' _ _ '日' _ rfl (by decide)
        (Or.inl (by decide)) (by decide) _ hds'
    · exact runFormat_Y_lit_dead '-' _ _ '日' _ rfl (by decide)
        (Or.inl (by decide)) (by decide) _ hds'
    · exact runFormat_Y_lit_dead '-' _ _ '日' _ rfl (by decide)
        (Or.inl (by decide)) (by decide) _ hds'
    · exact runFormat_Y_lit_dead '-' _ _ '日' _ rfl (by decide)
        (Or.inl (by decide)) (by decide) _ hds'
    · exact runFormat_day_ws_dead _ _ '日' _ rfl (by decide) (by decide) _ hds'
    · exact runFormat_day_ws_dead _ _ '日' _ rfl (by decide) (by decide) _ hds'
    · exact runFormat_Y_lit_dead '年' _ _ '日' _ rfl (by decide)
        (Or.inr (by decide)) (by decide) _ hds'
  have hlow : (pyLower (s ++ "日前")).toList = s.toList ++ ['日', '前'] :=
    pyLower_digits_tail s ['日', '前'] hds' (by decide)
  have hmiss : searchNumBefore ((pyLower (s ++ "日前")).toList) ['時', '間', '前'] =
      none := by
    rw [hlow]
    exact searchNumBefore_miss ['時', '間', '前'] s.toList ['日', '前'] hds'
      (by decide) (by decide) (by decide)
  have hhit : searchNumBefore ((pyLower (s ++ "日前")).toList) ['日', '前'] =
      some (digitsToNat s.toList) := by
    rw [hlow]
    exact searchNumBefore_hit s.toList c rest hcons hds' _ (by decide)
  simp only [parse_news_date]
  rw [if_neg (string_append_ne_empty s "日前" (by decide))]
  rw [hdead, hmiss, hhit]


/-- Claim C8, counterexample: the relative expressions recognized by
`parse_news_date` are the Japanese `N時間前` / `N日前` only — the English
strings "5 hours ago" and "2 days ago" match no `strptime` format and no
relative pattern, so they parse to `None` instead of the claimed
now-minus-offset instants. -/
theorem claim_C8_counterexample :
    parse_news_date 1716000000 (some "5 hours ago") = none ∧
    parse_news_date 1716000000 (some "2 days ago") = none := by
  constructor <;> decide

/-- Claim C8, amended: `parse_news_date` accepts at least ISO-8601 with and
without offset, `YYYY-MM-DD`, and day-month-year text forms; the supported
relative expressions are the Japanese forms: for every non-empty digit
string `N`, `N時間前` parses to the current instant minus N hours and
`N日前` to the current instant minus N days.  English relative forms
("N hours ago") are outside all accepted forms and yield `None`, as does
any other unrecognized string (item kept as possibly current). -/
theorem claim_C8 (now : Int) (s : String) (hne : s ≠ "")
    (hdig : s.toList.all isDigitC = true) :
    parse_news_date now (some "2024-05-01T10:20:30+09:00") =
      some { sec := 1714526430, aware := true } ∧
    parse_news_date now (some "2024-05-01T10:20:30") =
      some { sec := 1714558830, aware := false } ∧
    parse_news_date now (some "2024-05-01") =
      some { sec := 1714521600, aware := false } ∧
    parse_news_date now (some "01 Jan 2024") =
      some { sec := 1704067200, aware := false } ∧
    parse_news_date now (some "01 January 2024") =
      some { sec := 1704067200, aware := false } ∧
    parse_news_date now (some (s ++ "時間前")) =
      some { sec := now - 3600 * (digitsToNat s.toList : Int), aware := true } ∧
    parse_news_date now (some (s ++ "日前")) =
      some { sec := now - 86400 * (digitsToNat s.toList : Int), aware := true } ∧
    parse_news_date now (some "5 hours ago") = none ∧
    parse_news_date now (some "not-a-date") = none :=
  ⟨rfl, rfl, rfl, rfl, rfl,
    parse_relative_hours now s hne hdig,
    parse_relative_days now s hne hdig,
    rfl, rfl⟩

/-- Claim C8, witness: `N = 5` at a concrete instant. -/
theorem claim_C8_witness :
    parse_news_date 1716000000 (some "2024-05-01T10:20:30+09:00") =
      some { sec := 1714526430, aware := true } ∧
    parse_news_date 1716000000 (some "2024-05-01T10:20:30") =
      some { sec := 1714558830, aware := false } ∧
    parse_news_date 1716000000 (some "2024-05-01") =
      some { sec := 1714521600, aware := false } ∧
    parse_news_date 1716000000 (some "01 Jan 2024") =
      some { sec := 1704067200, aware := false } ∧
    parse_news_date 1716000000 (some "01 January 2024") =
      some { sec := 1704067200, aware := false } ∧
    parse_news_date 1716000000 (some ("5" ++ "時間前")) =
      some { sec := 1716000000 - 3600 * (digitsToNat "5".toList : Int),
             aware := true } ∧
    parse_news_date 1716000000 (some ("5" ++ "日前")) =
      some { sec := 1716000000 - 86400 * (digitsToNat "5".toList : Int),
             aware := true } ∧
    parse_news_date 1716000000 (some "5 hours ago") = none ∧
    parse_news_date 1716000000 (some "not-a-date") = none :=
  claim_C8 1716000000 "5" (by decide) (by decide)
